import Mathlib

/-
Verification of the SQL execution core of the tauri-dbtools repository:
statement segmentation (parse_sql_statements), statement classification
(determine_query_type), sequential multi-statement execution (execute_sql /
execute_multiple_statements), error-position extraction
(extract_error_position) and the atomic batch mutation engine
(batch_update_rows / batch_insert_rows / batch_delete_rows).

The database connection is modelled as an explicit state machine: each call
may inspect and transform an abstract state, and the model functions return,
next to the result, the final state and the ordered list of SQL texts that
were sent over the connection.  Wall-clock time is modelled by a `now`
observer on the connection state, so Instant::now / elapsed become
subtractions of `now` values.  A Rust panic is modelled as `Option.none`.

Value decoding of result cells is abstracted at the connection boundary:
a row arrives with its column metadata (name and already-formatted type
name) and its decoded cell map, since no claim concerns the per-type decode
tables.  serde_json numbers and arrays/objects are carried as their
serialized text, which is all the statement builder uses of them.
-/

set_option maxRecDepth 8000

/-- The single-quote character (code point 39). -/
def squote : Char := Char.ofNat 39

/-- The backslash character (code point 92). -/
def bslash : Char := Char.ofNat 92

/-- Unicode White_Space, as used by Rust char::is_whitespace and str::trim. -/
def isWhitespaceRust (c : Char) : Bool :=
  let n := c.toNat
  if 9 ≤ n ∧ n ≤ 13 then true
  else if n = 32 ∨ n = 133 ∨ n = 160 ∨ n = 5760 then true
  else if 8192 ≤ n ∧ n ≤ 8202 then true
  else if n = 8232 ∨ n = 8233 ∨ n = 8239 ∨ n = 8287 ∨ n = 12288 then true
  else false

/-- Model of Rust str::trim on a character list. -/
def trimCharsRust (l : List Char) : List Char :=
  ((l.dropWhile isWhitespaceRust).reverse.dropWhile isWhitespaceRust).reverse

/-- Drop exactly `n` UTF-8 bytes from the front of a character list; `none`
when `n` lands inside a character or past the end, which is where Rust string
slicing panics. -/
def byteDrop : List Char → Nat → Option (List Char)
  | l, 0 => some l
  | [], _ + 1 => none
  | c :: l, n + 1 =>
    if c.utf8Size ≤ n + 1 then byteDrop l (n + 1 - c.utf8Size) else none

/-- Take exactly `n` UTF-8 bytes from the front of a character list; `none`
when `n` lands inside a character or past the end. -/
def byteTake : List Char → Nat → Option (List Char)
  | _, 0 => some []
  | [], _ + 1 => none
  | c :: l, n + 1 =>
    if c.utf8Size ≤ n + 1 then (byteTake l (n + 1 - c.utf8Size)).map (c :: ·) else none

/-- Model of the Rust byte slice `s[a..b]` on a character list. -/
def byteSlice (cs : List Char) (a b : Nat) : Option (List Char) :=
  (byteTake cs b).bind (fun p => byteDrop p a)

/-- The scan state of parse_sql_statements: the four mutually exclusive
region flags plus the one-character escape lookahead used inside strings. -/
structure ScanSt where
  inString : Bool
  inLine : Bool
  inBlock : Bool
  esc : Bool
deriving DecidableEq, Repr

/-- The initial (`normal`) scan state. -/
def ScanSt.init : ScanSt := ⟨false, false, false, false⟩

/-- One iteration of the while loop of parse_sql_statements: from the current
index and scan state, produce the next index, the next scan state, and
whether the statement-separator branch fired at this index. -/
def scanStep (cs : List Char) (len i : Nat) (st : ScanSt) : Nat × ScanSt × Bool :=
  let ch := cs.getD i ' '
  if st.esc then (i + 1, { st with esc := false }, false)
  else if ¬ st.inString ∧ ¬ st.inBlock ∧ i + 1 < len ∧ ch = '-' ∧ cs.getD (i + 1) ' ' = '-' then
    (i + 2, { st with inLine := true }, false)
  else if st.inLine then
    (i + 1, if ch = '\n' then { st with inLine := false } else st, false)
  else if ¬ st.inString ∧ ¬ st.inLine ∧ i + 1 < len ∧ ch = '/' ∧ cs.getD (i + 1) ' ' = '*' then
    (i + 2, { st with inBlock := true }, false)
  else if st.inBlock then
    if i + 1 < len ∧ ch = '*' ∧ cs.getD (i + 1) ' ' = '/' then (i + 2, { st with inBlock := false }, false)
    else (i + 1, st, false)
  else if ch = squote ∧ ¬ st.inLine ∧ ¬ st.inBlock then
    if st.inString then
      if i + 1 < len ∧ cs.getD (i + 1) ' ' = squote then (i + 2, st, false)
      else (i + 1, { st with inString := false }, false)
    else (i + 1, { st with inString := true }, false)
  else if st.inString ∧ ch = bslash then (i + 1, { st with esc := true }, false)
  else if ch = ';' ∧ ¬ st.inString ∧ ¬ st.inLine ∧ ¬ st.inBlock then
    (i + 1, st, true)
  else (i + 1, st, false)

/-- The while loop of parse_sql_statements, fuelled.  Returns the list of
character indices at which the separator branch fired, together with the
trace of (index, scan state at loop entry) pairs of every examined index. -/
def scanAux (cs : List Char) (len : Nat) : Nat → Nat → ScanSt → List Nat × List (Nat × ScanSt)
  | 0, _, _ => ([], [])
  | fuel + 1, i, st =>
    if i < len then
      let step := scanStep cs len i st
      let rest := scanAux cs len fuel step.1 step.2.1
      ((if step.2.2 then i :: rest.1 else rest.1), (i, st) :: rest.2)
    else ([], [])

/-- The separator indices found by the scan of parse_sql_statements. -/
def splitIndices (cs : List Char) : List Nat :=
  (scanAux cs cs.length (cs.length + 1) 0 ScanSt.init).1

/-- The indices examined by the scan, with the scan state at each. -/
def scanTrace (cs : List Char) : List (Nat × ScanSt) :=
  (scanAux cs cs.length (cs.length + 1) 0 ScanSt.init).2

/-- Build the statement list from the separator indices exactly as the source
does: slice `sql[current_start..i]` at each separator and `sql[current_start..]`
at the end, trim, and drop empties.  The separator indices are character
counts, but the source uses them as byte offsets into a UTF-8 string: the
slice panics (`none`) off a character boundary. -/
def buildStatements (cs : List Char) : List Nat → Nat → Option (List String)
  | [], cur =>
    match byteDrop cs cur with
    | none => none
    | some rest =>
      let t := trimCharsRust rest
      some (if t = [] then [] else [String.mk t])
  | b :: bs, cur =>
    match byteSlice cs cur b with
    | none => none
    | some seg =>
      let t := trimCharsRust seg
      match buildStatements cs bs (b + 1) with
      | none => none
      | some stmts => some (if t = [] then stmts else String.mk t :: stmts)

/-- parse_sql_statements from services/query_executor.rs. -/
def parse_sql_statements (sql : String) : Option (List String) :=
  buildStatements sql.data (splitIndices sql.data) 0

/-- The inner line-comment loop of determine_query_type:
`while i < len && chars[i] != newline { i += 1 }`. -/
def lineEnd (cs : List Char) (len : Nat) : Nat → Nat → Nat
  | 0, i => i
  | fuel + 1, i =>
    if i < len ∧ cs.getD i ' ' ≠ '\n' then lineEnd cs len fuel (i + 1) else i

/-- The inner block-comment loop of determine_query_type:
`while i + 1 < len { if closer { i += 2; break } i += 1 }`. -/
def blockEnd (cs : List Char) (len : Nat) : Nat → Nat → Nat
  | 0, i => i
  | fuel + 1, i =>
    if i + 1 < len then
      if cs.getD i ' ' = '*' ∧ cs.getD (i + 1) ' ' = '/' then i + 2
      else blockEnd cs len fuel (i + 1)
    else i

/-- The leading whitespace-and-comment skip of determine_query_type.  Returns
the index of the first meaningful character; a trailing line comment with no
newline leaves the index at `len + 1`, and the source then panics slicing
`chars[i..]`. -/
def skipWsComments (cs : List Char) (len : Nat) : Nat → Nat → Nat
  | 0, i => i
  | fuel + 1, i =>
    if i < len then
      if isWhitespaceRust (cs.getD i ' ') then skipWsComments cs len fuel (i + 1)
      else if i + 1 < len ∧ cs.getD i ' ' = '-' ∧ cs.getD (i + 1) ' ' = '-' then
        skipWsComments cs len fuel (lineEnd cs len (len + 1) i + 1)
      else if i + 1 < len ∧ cs.getD i ' ' = '/' ∧ cs.getD (i + 1) ' ' = '*' then
        skipWsComments cs len fuel (blockEnd cs len (len + 1) (i + 2))
      else i
    else i

/-- The comment-skip entry point of determine_query_type. -/
def dqtSkip (cs : List Char) : Nat :=
  skipWsComments cs cs.length (cs.length + 2) 0

/-- The closed result-kind set of models/query.rs. -/
inductive QueryResultType
  | Select | Insert | Update | Delete | Ddl | Error
deriving DecidableEq, Repr

/-- The trimmed, uppercased character list determine_query_type scans
(uppercasing is modelled per character; the keywords involved are ASCII). -/
def dqtUpper (sql : String) : List Char :=
  (trimCharsRust sql.data).map Char.toUpper

/-- determine_query_type from services/query_executor.rs.  `none` models the
out-of-bounds panic after an unterminated trailing line comment. -/
def determine_query_type (sql : String) : Option QueryResultType :=
  let up := dqtUpper sql
  let len := up.length
  let i := dqtSkip up
  if i ≤ len then
    let rem := up.drop i
    some (
      if "SELECT".data.isPrefixOf rem ∨ "WITH".data.isPrefixOf rem then .Select
      else if "INSERT".data.isPrefixOf rem then .Insert
      else if "UPDATE".data.isPrefixOf rem then .Update
      else if "DELETE".data.isPrefixOf rem then .Delete
      else if "CREATE".data.isPrefixOf rem ∨ "ALTER".data.isPrefixOf rem ∨
              "DROP".data.isPrefixOf rem ∨ "TRUNCATE".data.isPrefixOf rem then .Ddl
      else .Error)
  else none

/-- The meaningful remainder the classifier matches keywords against. -/
def dqtRem (sql : String) : List Char :=
  (dqtUpper sql).drop (dqtSkip (dqtUpper sql))

/-- serde_json values as the statement builder consumes them: numbers and
arrays/objects are carried as their serialized text form. -/
inductive JValue
  | null
  | bool (b : Bool)
  | num (lit : String)
  | str (s : String)
  | structured (json : String)
deriving DecidableEq, Repr

/-- Double every embedded single quote, as `s.replace(quote, two quotes)`. -/
def escapeQuotes (s : String) : String :=
  String.mk (s.data.foldr (fun c acc => if c = squote then squote :: squote :: acc else c :: acc) [])

/-- format_value from services/transaction_manager.rs. -/
def format_value : JValue → String
  | .null => "NULL"
  | .bool b => if b then "true" else "false"
  | .num lit => lit
  | .str s => String.mk [squote] ++ escapeQuotes s ++ String.mk [squote]
  | .structured j => String.mk [squote] ++ escapeQuotes j ++ String.mk [squote]

/-- RowUpdate from models/data.rs; the HashMaps are modelled as association
lists in some iteration order (no claim depends on the order). -/
structure RowUpdate where
  primary_key : List (String × JValue)
  changes : List (String × JValue)
deriving DecidableEq, Repr

/-- BatchOperationResponse from models/data.rs. -/
structure BatchOperationResponse where
  success : Bool
  rows_affected : Nat
  error : Option String
deriving DecidableEq, Repr

/-- BatchOperationResponse::success. -/
def BatchOperationResponse.successResp (rows_affected : Nat) : BatchOperationResponse :=
  ⟨true, rows_affected, none⟩

/-- BatchOperationResponse::error (rows_affected is forced to 0). -/
def BatchOperationResponse.errorResp (error : String) : BatchOperationResponse :=
  ⟨false, 0, some error⟩

/-- build_update_statement from services/transaction_manager.rs. -/
def build_update_statement (schema table : String) (update : RowUpdate) : Except String String :=
  if update.changes = [] then .error "没有要更新的字段"
  else if update.primary_key = [] then .error "主键不能为空"
  else
    .ok ("UPDATE " ++ schema ++ "." ++ table ++ " SET " ++
      String.intercalate ", " (update.changes.map (fun p => p.1 ++ " = " ++ format_value p.2)) ++
      " WHERE " ++
      String.intercalate " AND " (update.primary_key.map (fun p => p.1 ++ " = " ++ format_value p.2)))

/-- build_insert_statement from services/transaction_manager.rs. -/
def build_insert_statement (schema table : String) (row : List (String × JValue)) : Except String String :=
  if row = [] then .error "没有要插入的数据"
  else
    .ok ("INSERT INTO " ++ schema ++ "." ++ table ++ " (" ++
      String.intercalate ", " (row.map (·.1)) ++ ") VALUES (" ++
      String.intercalate ", " (row.map (fun p => format_value p.2)) ++ ")")

/-- build_delete_statement from services/transaction_manager.rs. -/
def build_delete_statement (schema table : String) (primary_key : List (String × JValue)) : Except String String :=
  if primary_key = [] then .error "主键不能为空"
  else
    .ok ("DELETE FROM " ++ schema ++ "." ++ table ++ " WHERE " ++
      String.intercalate " AND " (primary_key.map (fun p => p.1 ++ " = " ++ format_value p.2)))

/-- The connection capability used by the batch mutation engine: `query` runs
a statement whose rows are ignored (BEGIN / COMMIT / ROLLBACK) and `exec`
runs a statement returning its affected-row count.  Errors are carried as
their displayed message, which is all the batch engine uses of them. -/
structure BatchConn (σ : Type) where
  query : String → σ → Except String Unit × σ
  exec : String → σ → Except String Nat × σ

/-- The common per-item loop (plus final COMMIT handling) shared verbatim by
batch_update_rows, batch_insert_rows and batch_delete_rows; the three only
differ in the statement builder and in the message fragments.  Returns the
response, the final connection state, and the trace of issued SQL texts. -/
def batchLoop (C : BatchConn σ) (build : α → Except String String)
    (buildFailMsg failMsgA failMsgB : String) :
    List α → Nat → Nat → σ → BatchOperationResponse × σ × List String
  | [], _, total, s =>
    match C.query "COMMIT" s with
    | (.ok _, s₁) => (.successResp total, s₁, ["COMMIT"])
    | (.error e, s₁) =>
      let r := C.query "ROLLBACK" s₁
      (.errorResp ("提交事务失败: " ++ e ++ ". 所有更改已回滚"), r.2, ["COMMIT", "ROLLBACK"])
  | item :: rest, idx, total, s =>
    match build item with
    | .error e =>
      let r := C.query "ROLLBACK" s
      (.errorResp (buildFailMsg ++ e), r.2, ["ROLLBACK"])
    | .ok sql =>
      match C.exec sql s with
      | (.ok affected, s₁) =>
        let out := batchLoop C build buildFailMsg failMsgA failMsgB rest (idx + 1) (total + affected) s₁
        (out.1, out.2.1, sql :: out.2.2)
      | (.error e, s₁) =>
        let r := C.query "ROLLBACK" s₁
        (.errorResp (failMsgA ++ toString (idx + 1) ++ failMsgB ++ e ++ ". 所有更改已回滚"), r.2, [sql, "ROLLBACK"])

/-- batch_update_rows from services/transaction_manager.rs. -/
def batch_update_rows (C : BatchConn σ) (s : σ) (schema table : String)
    (updates : List RowUpdate) : BatchOperationResponse × σ × List String :=
  if updates = [] then (.errorResp "没有要更新的行", s, [])
  else
    match C.query "BEGIN" s with
    | (.error e, s₁) => (.errorResp ("无法开始事务: " ++ e), s₁, ["BEGIN"])
    | (.ok _, s₁) =>
      let out := batchLoop C (build_update_statement schema table)
        "构建UPDATE语句失败: " "更新操作 " " 失败: " updates 0 0 s₁
      (out.1, out.2.1, "BEGIN" :: out.2.2)

/-- batch_insert_rows from services/transaction_manager.rs. -/
def batch_insert_rows (C : BatchConn σ) (s : σ) (schema table : String)
    (rows : List (List (String × JValue))) : BatchOperationResponse × σ × List String :=
  if rows = [] then (.errorResp "没有要插入的行", s, [])
  else
    match C.query "BEGIN" s with
    | (.error e, s₁) => (.errorResp ("无法开始事务: " ++ e), s₁, ["BEGIN"])
    | (.ok _, s₁) =>
      let out := batchLoop C (build_insert_statement schema table)
        "构建INSERT语句失败: " "插入操作 " " 失败: " rows 0 0 s₁
      (out.1, out.2.1, "BEGIN" :: out.2.2)

/-- batch_delete_rows from services/transaction_manager.rs. -/
def batch_delete_rows (C : BatchConn σ) (s : σ) (schema table : String)
    (primary_keys : List (List (String × JValue))) : BatchOperationResponse × σ × List String :=
  if primary_keys = [] then (.errorResp "没有要删除的行", s, [])
  else
    match C.query "BEGIN" s with
    | (.error e, s₁) => (.errorResp ("无法开始事务: " ++ e), s₁, ["BEGIN"])
    | (.ok _, s₁) =>
      let out := batchLoop C (build_delete_statement schema table)
        "构建DELETE语句失败: " "删除操作 " " 失败: " primary_keys 0 0 s₁
      (out.1, out.2.1, "BEGIN" :: out.2.2)

/-- ErrorPosition from models/query.rs. -/
structure ErrorPosition where
  line : Nat
  column : Nat
deriving DecidableEq, Repr

/-- ColumnInfo from models/query.rs. -/
structure ColumnInfo where
  name : String
  type_name : String
  nullable : Bool
  is_primary_key : Bool
deriving DecidableEq, Repr

/-- The position payload of a PostgreSQL error, as exposed by the driver:
either an offset into the original query or into an internally-rewritten
query. -/
inductive PgPosition
  | original (pos : Nat)
  | internal (pos : Nat) (query : String)
deriving DecidableEq, Repr

/-- The database-error payload of a driver error: vendor code, raw message
and optional position. -/
structure DbError where
  code : String
  message : String
  position : Option PgPosition
deriving DecidableEq, Repr

/-- A driver error: either a database error, or any other error carried as
its displayed text (what error.to_string() yields). -/
inductive PgError
  | db (e : DbError)
  | other (display : String)
deriving DecidableEq, Repr

/-- A row as it arrives from the driver: column metadata (name and
already-formatted type name) plus the decoded cell map; the per-type value
decoder is abstracted into the connection boundary. -/
structure PgRow where
  columns : List (String × String)
  values : List (String × JValue)
deriving DecidableEq, Repr

/-- QueryResult from models/query.rs. -/
structure QueryResult where
  result_type : QueryResultType
  columns : Option (List ColumnInfo)
  rows : Option (List (List (String × JValue)))
  affected_rows : Option Nat
  duration_ms : Nat
  error : Option String
  error_position : Option ErrorPosition
deriving DecidableEq, Repr

/-- QueryResult::select. -/
def QueryResult.selectR (columns : List ColumnInfo) (rows : List (List (String × JValue)))
    (duration_ms : Nat) : QueryResult :=
  ⟨.Select, some columns, some rows, none, duration_ms, none, none⟩

/-- QueryResult::dml. -/
def QueryResult.dmlR (result_type : QueryResultType) (affected_rows duration_ms : Nat) : QueryResult :=
  ⟨result_type, none, none, some affected_rows, duration_ms, none, none⟩

/-- QueryResult::ddl. -/
def QueryResult.ddlR (duration_ms : Nat) : QueryResult :=
  ⟨.Ddl, none, none, none, duration_ms, none, none⟩

/-- QueryResult::error. -/
def QueryResult.errorR (error : String) (error_position : Option ErrorPosition)
    (duration_ms : Nat) : QueryResult :=
  ⟨.Error, none, none, none, duration_ms, some error, error_position⟩

/-- The vendor-code lookup table of format_error_message; unmatched codes
fall back to the raw message. -/
def friendlyFor (code message : String) : String :=
  match code with
  | "23505" => "Unique constraint violation: This value already exists in the database"
  | "23503" => "Foreign key constraint violation: Cannot delete or update because related data exists"
  | "23502" => "Not null constraint violation: A required field cannot be empty"
  | "23514" => "Check constraint violation: The value does not meet the defined requirements"
  | "42601" => "Syntax error: The SQL statement has invalid syntax"
  | "42501" => "Permission denied: You don't have the required privileges for this operation"
  | "42P01" => "Table does not exist: The specified table was not found"
  | "42703" => "Column does not exist: The specified column was not found"
  | "42P07" => "Table already exists: A table with this name already exists"
  | "42702" => "Ambiguous column: The column name is ambiguous and needs qualification"
  | "42704" => "Undefined object: The specified database object was not found"
  | "42723" => "Duplicate function: A function with this signature already exists"
  | "42P06" => "Duplicate schema: A schema with this name already exists"
  | "42P04" => "Duplicate database: A database with this name already exists"
  | "22001" => "String data too long: The value exceeds the maximum length"
  | "22003" => "Numeric value out of range: The number is too large or too small"
  | "22007" => "Invalid datetime format: The date or time value is not in the correct format"
  | "22008" => "Datetime field overflow: The datetime value is out of range"
  | "22012" => "Division by zero: Cannot divide by zero"
  | "22P02" => "Invalid text representation: The value cannot be converted to the target type"
  | "08000" => "Connection error: Failed to connect to the database"
  | "08003" => "Connection does not exist: The database connection was lost"
  | "08006" => "Connection failure: The database connection failed"
  | "08001" => "Unable to connect: The server cannot establish a connection"
  | "08004" => "Connection rejected: The server rejected the connection"
  | "53000" => "Insufficient resources: The server does not have enough resources"
  | "53100" => "Disk full: The database disk is full"
  | "53200" => "Out of memory: The server has run out of memory"
  | "53300" => "Too many connections: The maximum number of connections has been reached"
  | "40001" => "Serialization failure: The transaction was rolled back due to concurrent access"
  | "40P01" => "Deadlock detected: The transaction was rolled back to resolve a deadlock"
  | "25000" => "Invalid transaction state: The operation is not valid in the current transaction state"
  | "25001" => "Active SQL transaction: Cannot perform this operation while a transaction is active"
  | "25P02" => "Transaction failed: The current transaction has failed and must be rolled back"
  | "54000" => "Program limit exceeded: A system limit has been exceeded"
  | "54001" => "Statement too complex: The SQL statement is too complex to execute"
  | "54011" => "Too many columns: The table has too many columns"
  | "54023" => "Too many arguments: Too many arguments provided to the function"
  | _ => message

/-- format_error_message from services/query_executor.rs. -/
def format_error_message : PgError → String
  | .other s => s
  | .db d =>
    let friendly := friendlyFor d.code d.message
    if friendly ≠ d.message then
      friendly ++ "\n\nTechnical details: " ++ d.message ++ " (Error code: " ++ d.code ++ ")"
    else
      d.message ++ " (Error code: " ++ d.code ++ ")"

/-- Rust str::split on a non-empty pattern, fuelled: splits at each
non-overlapping occurrence, left to right. -/
def splitOnSeg (pat : List Char) : Nat → List Char → List Char → List (List Char)
  | 0, l, acc => [acc.reverse ++ l]
  | fuel + 1, l, acc =>
    match l with
    | [] => [acc.reverse]
    | c :: rest =>
      if pat.isPrefixOf (c :: rest) then
        acc.reverse :: splitOnSeg pat fuel (List.drop pat.length (c :: rest)) []
      else splitOnSeg pat fuel rest (c :: acc)

/-- Model of `message.split(pattern)` collected into a list. -/
def splitText (s pat : String) : List (List Char) :=
  splitOnSeg pat.data (s.data.length + 1) s.data []

/-- Model of `split_whitespace().next()`: the first maximal non-whitespace
run, or none if there is none. -/
def firstToken (l : List Char) : Option (List Char) :=
  let l' := l.dropWhile isWhitespaceRust
  if l' = [] then none else some (l'.takeWhile (fun c => ¬ isWhitespaceRust c))

/-- Model of `str::parse::<usize>()`: optional leading plus sign followed by
at least one ASCII digit. -/
def parseUsize (l : List Char) : Option Nat :=
  let l' := match l with
    | c :: rest => if c = '+' then rest else c :: rest
    | [] => []
  if l' = [] then none
  else if l'.all Char.isDigit then
    some (l'.foldl (fun n c => n * 10 + (c.toNat - 48)) 0)
  else none

/-- The message-parsing fallback of extract_error_position: take what follows
the first occurrence of "at character ", then parse its first
whitespace-delimited token (defaulting to "0") as an unsigned integer. -/
def parseAtCharacter (message : String) : Option Nat :=
  match (splitText message "at character ").get? 1 with
  | none => none
  | some tail => parseUsize ((firstToken tail).getD "0".data)

/-- extract_error_position from services/query_executor.rs. -/
def extract_error_position : PgError → Option ErrorPosition
  | .other _ => none
  | .db d =>
    match d.position with
    | some (.original pos) => some ⟨1, pos⟩
    | some (.internal pos _) => some ⟨1, pos⟩
    | none =>
      match parseAtCharacter d.message with
      | some pos => some ⟨1, pos⟩
      | none => none

/-- The connection capability used by the execution engine: `query` runs a
row-returning statement, `exec` runs a statement returning its affected-row
count, and `now` observes the wall clock of a connection state (engine calls
may advance it). -/
structure Conn (σ : Type) where
  now : σ → Nat
  query : String → σ → Except PgError (List PgRow) × σ
  exec : String → σ → Except PgError Nat × σ

/-- extract_column_info from services/query_executor.rs: ad hoc query results
report nullable = true and is_primary_key = false. -/
def extract_column_info (r : PgRow) : List ColumnInfo :=
  r.columns.map (fun p => ⟨p.1, p.2, true, false⟩)

/-- row_to_hashmap from services/query_executor.rs (per-type decoding is
abstracted into the row's decoded cell map). -/
def row_to_hashmap (r : PgRow) : List (String × JValue) :=
  r.values

/-- execute_select from services/query_executor.rs. -/
def execute_select (C : Conn σ) (sql : String) (start : Nat) (s : σ) :
    QueryResult × σ × List String :=
  match C.query sql s with
  | (.ok rows, s₁) =>
    match rows with
    | [] => (.selectR [] [] (C.now s₁ - start), s₁, [sql])
    | r :: _ =>
      (.selectR (extract_column_info r) (rows.map row_to_hashmap) (C.now s₁ - start), s₁, [sql])
  | (.error e, s₁) =>
    (.errorR (format_error_message e) (extract_error_position e) (C.now s₁ - start), s₁, [sql])

/-- execute_dml from services/query_executor.rs. -/
def execute_dml (C : Conn σ) (sql : String) (query_type : QueryResultType) (start : Nat) (s : σ) :
    QueryResult × σ × List String :=
  match C.exec sql s with
  | (.ok affected, s₁) => (.dmlR query_type affected (C.now s₁ - start), s₁, [sql])
  | (.error e, s₁) =>
    (.errorR (format_error_message e) (extract_error_position e) (C.now s₁ - start), s₁, [sql])

/-- execute_ddl from services/query_executor.rs. -/
def execute_ddl (C : Conn σ) (sql : String) (start : Nat) (s : σ) :
    QueryResult × σ × List String :=
  match C.exec sql s with
  | (.ok _, s₁) => (.ddlR (C.now s₁ - start), s₁, [sql])
  | (.error e, s₁) =>
    (.errorR (format_error_message e) (extract_error_position e) (C.now s₁ - start), s₁, [sql])

/-- execute_single_statement from services/query_executor.rs.  `none` models
the panic of determine_query_type on an unterminated trailing line comment. -/
def execute_single_statement (C : Conn σ) (sql : String) (start : Nat) (s : σ) :
    Option (QueryResult × σ × List String) :=
  match determine_query_type sql with
  | none => none
  | some .Select => some (execute_select C sql start s)
  | some .Insert => some (execute_dml C sql .Insert start s)
  | some .Update => some (execute_dml C sql .Update start s)
  | some .Delete => some (execute_dml C sql .Delete start s)
  | some .Ddl => some (execute_ddl C sql start s)
  | some .Error =>
    some (.errorR "Unable to determine query type" none (C.now s - start), s, [])

/-- The for loop of execute_multiple_statements, carrying the enumeration
index, the accumulated affected-row total and the last successful result. -/
def execMultiLoop (C : Conn σ) (start : Nat) :
    List String → Nat → Nat → Option QueryResult → σ → List String →
    Option (QueryResult × σ × List String)
  | [], _, total, last, s, tracc =>
    match last with
    | some r =>
      some ({ r with
                duration_ms := C.now s - start
                affected_rows :=
                  if 0 < total ∧ r.affected_rows.isSome then some total else r.affected_rows },
            s, tracc)
    | none => some (.errorR "No statements to execute" none (C.now s - start), s, tracc)
  | stmt :: rest, idx, total, _last, s, tracc =>
    match execute_single_statement C stmt (C.now s) s with
    | none => none
    | some (r, s₁, tr) =>
      if r.result_type = .Error then
        some (.errorR ("Error in statement " ++ toString (idx + 1) ++ ": " ++ r.error.getD "")
                r.error_position (C.now s₁ - start), s₁, tracc ++ tr)
      else
        execMultiLoop C start rest (idx + 1) (total + r.affected_rows.getD 0) (some r) s₁ (tracc ++ tr)

/-- execute_multiple_statements from services/query_executor.rs. -/
def execute_multiple_statements (C : Conn σ) (statements : List String) (start : Nat) (s : σ) :
    Option (QueryResult × σ × List String) :=
  execMultiLoop C start statements 0 0 none s []

/-- execute_sql from services/query_executor.rs. -/
def execute_sql (C : Conn σ) (s : σ) (sql : String) : Option (QueryResult × σ × List String) :=
  let start := C.now s
  let t := trimCharsRust sql.data
  if t = [] then some (.errorR "SQL statement is empty" none (C.now s - start), s, [])
  else
    match parse_sql_statements (String.mk t) with
    | none => none
    | some stmts =>
      match stmts with
      | [st] => execute_single_statement C st start s
      | _ => execute_multiple_statements C stmts start s

/-- Spec-side device: run execute_single_statement over statements in order
with no early stop, collecting the per-statement results, the final state and
the concatenated trace. -/
def runSeq (C : Conn σ) : List String → σ → Option (List QueryResult × σ × List String)
  | [], s => some ([], s, [])
  | st :: rest, s =>
    match execute_single_statement C st (C.now s) s with
    | none => none
    | some (r, s₁, tr) =>
      match runSeq C rest s₁ with
      | none => none
      | some (rs, s₂, trs) => some (r :: rs, s₂, tr ++ trs)

/-- Spec-side device: run `exec` over a list of SQL texts in order, `none` at
the first engine error, collecting the affected-row counts. -/
def execAllOk (C : BatchConn σ) : List String → σ → Option (List Nat × σ)
  | [], s => some ([], s)
  | q :: rest, s =>
    match C.exec q s with
    | (.ok n, s₁) =>
      match execAllOk C rest s₁ with
      | none => none
      | some (ns, s₂) => some (n :: ns, s₂)
    | (.error _, _) => none

/-- The field-population invariant of QueryResult claimed by the spec:
columns/rows exactly for Select, affected_rows exactly for DML kinds, error
exactly for Error (duration_ms is a mandatory field of the type). -/
def shapeOk (r : QueryResult) : Prop :=
  (r.columns.isSome = true ↔ r.result_type = .Select) ∧
  (r.rows.isSome = true ↔ r.result_type = .Select) ∧
  (r.affected_rows.isSome = true ↔
    (r.result_type = .Insert ∨ r.result_type = .Update ∨ r.result_type = .Delete)) ∧
  (r.error.isSome = true ↔ r.result_type = .Error)

/-- The column rule claimed for extracted error positions: the structured
offset when the engine reports one (original or internally-rewritten),
otherwise the number parsed after "at character ". -/
def columnSpec : PgError → ErrorPosition → Prop
  | .db d, p =>
    match d.position with
    | some (.original pos) => p.column = pos
    | some (.internal pos _) => p.column = pos
    | none => parseAtCharacter d.message = some p.column
  | .other _, _ => False

/-- Modelled from the claim wording of C6: the first meaningful token of a
statement — uppercase, skip leading whitespace and comments exactly as the
classifier does, then take the maximal whitespace-delimited run. -/
def firstMeaningfulTokenSpec (sql : String) : Option String :=
  if dqtSkip (dqtUpper sql) ≤ (dqtUpper sql).length then
    (firstToken (dqtRem sql)).map String.mk
  else none

/-- The concrete segmentation example named by claim C4 (built by
concatenation so the quote character appears only via its code point). -/
def sqlC4 : String :=
  "INSERT INTO t (s) VALUES (" ++ String.mk [squote] ++ "a;b" ++ String.mk [squote] ++ "); SELECT 1"

/-- The first statement the C4 example must yield, with the quoted literal
unsplit. -/
def sqlC4stmt : String :=
  "INSERT INTO t (s) VALUES (" ++ String.mk [squote] ++ "a;b" ++ String.mk [squote] ++ ")"

lemma ws_not_special {c : Char} (h : isWhitespaceRust c = true) :
    c ≠ '-' ∧ c ≠ '/' ∧ c ≠ '*' ∧ c ≠ squote ∧ c ≠ bslash ∧ c ≠ ';' := by
  refine ⟨?_, ?_, ?_, ?_, ?_, ?_⟩ <;> rintro rfl <;> revert h <;> decide

lemma scanStep_ws {cs : List Char} {len i : Nat} (h : isWhitespaceRust (cs.getD i ' ') = true) :
    scanStep cs len i ScanSt.init = (i + 1, ScanSt.init, false) := by
  obtain ⟨h1, h2, h3, h4, h5, h6⟩ := ws_not_special h
  simp only [ne_eq] at h1 h2 h4 h5 h6
  simp at h1 h2 h4 h5 h6
  simp [scanStep, ScanSt.init, h1, h2, h4, h5, h6]

lemma scanAux_ws {cs : List Char} (hws : ∀ c ∈ cs, isWhitespaceRust c = true) :
    ∀ fuel i, (scanAux cs cs.length fuel i ScanSt.init).1 = [] := by
  intro fuel
  induction fuel with
  | zero => intro i; simp [scanAux]
  | succ n ih =>
    intro i
    by_cases h : i < cs.length
    · have hc : cs.getD i ' ' ∈ cs := by
        rw [List.getD_eq_getElem cs ' ' h]
        exact List.getElem_mem h
      rw [scanAux]
      simp only [h, if_true]
      rw [scanStep_ws (hws _ hc)]
      simpa using ih (i + 1)
    · rw [scanAux]
      simp [h]

lemma trimCharsRust_ws {l : List Char} (h : ∀ c ∈ l, isWhitespaceRust c = true) :
    trimCharsRust l = [] := by
  unfold trimCharsRust
  have h1 : l.dropWhile isWhitespaceRust = [] := by
    rw [List.dropWhile_eq_nil_iff]
    exact fun c hc => h c hc
  simp [h1]

lemma scanStep_split {cs : List Char} {len i : Nat} {st : ScanSt}
    (h : (scanStep cs len i st).2.2 = true) :
    st = ScanSt.init ∧ cs.getD i ' ' = ';' := by
  obtain ⟨a, b, c, d⟩ := st
  simp only [scanStep] at h
  split_ifs at h <;> simp_all [ScanSt.init]

lemma scanStep_gt (cs : List Char) (len i : Nat) (st : ScanSt) :
    i < (scanStep cs len i st).1 := by
  simp only [scanStep]
  split_ifs <;> simp

lemma scanAux_splits_mem {cs : List Char} {len : Nat} :
    ∀ fuel i st j, j ∈ (scanAux cs len fuel i st).1 →
      (j, ScanSt.init) ∈ (scanAux cs len fuel i st).2 ∧ cs.getD j ' ' = ';' := by
  intro fuel
  induction fuel with
  | zero => intro i st j h; simp [scanAux] at h
  | succ n ih =>
    intro i st j h
    rw [scanAux] at h ⊢
    by_cases hi : i < len
    · simp only [hi, if_true] at h ⊢
      by_cases hsp : (scanStep cs len i st).2.2 = true
      · rw [if_pos hsp] at h
        rcases List.mem_cons.mp h with rfl | hj
        · obtain ⟨hst, hch⟩ := scanStep_split hsp
          refine ⟨?_, hch⟩
          rw [hst]
          exact List.mem_cons_self _ _
        · obtain ⟨htr, hch⟩ := ih _ _ _ hj
          exact ⟨List.mem_cons_of_mem _ htr, hch⟩
      · rw [if_neg hsp] at h
        obtain ⟨htr, hch⟩ := ih _ _ _ h
        exact ⟨List.mem_cons_of_mem _ htr, hch⟩
    · simp [hi] at h

lemma scanAux_trace_ge {cs : List Char} {len : Nat} :
    ∀ fuel i st j stj, (j, stj) ∈ (scanAux cs len fuel i st).2 → i ≤ j := by
  intro fuel
  induction fuel with
  | zero => intro i st j stj h; simp [scanAux] at h
  | succ n ih =>
    intro i st j stj h
    rw [scanAux] at h
    by_cases hi : i < len
    · simp only [hi, if_true] at h
      rcases List.mem_cons.mp h with hj | hj
      · simp at hj
        omega
      · have h1 := ih _ _ _ _ hj
        have h2 := scanStep_gt cs len i st
        omega
    · simp [hi] at h

lemma scanAux_trace_uniq {cs : List Char} {len : Nat} :
    ∀ fuel i st j a b, (j, a) ∈ (scanAux cs len fuel i st).2 →
      (j, b) ∈ (scanAux cs len fuel i st).2 → a = b := by
  intro fuel
  induction fuel with
  | zero => intro i st j a b h _; simp [scanAux] at h
  | succ n ih =>
    intro i st j a b ha hb
    rw [scanAux] at ha hb
    by_cases hi : i < len
    · simp only [hi, if_true] at ha hb
      rcases List.mem_cons.mp ha with hja | hja
      · rcases List.mem_cons.mp hb with hjb | hjb
        · rw [Prod.mk.injEq] at hja hjb
          rw [hja.2, hjb.2]
        · rw [Prod.mk.injEq] at hja
          have h1 := scanAux_trace_ge _ _ _ _ _ hjb
          have h2 := scanStep_gt cs len i st
          have h3 := hja.1
          omega
      · rcases List.mem_cons.mp hb with hjb | hjb
        · rw [Prod.mk.injEq] at hjb
          have h1 := scanAux_trace_ge _ _ _ _ _ hja
          have h2 := scanStep_gt cs len i st
          have h3 := hjb.1
          omega
        · exact ih _ _ _ _ _ hja hjb
    · simp only [hi, if_false] at ha
      simp at ha

/-- C4: a semicolon examined by the segmentation scan inside a single-quoted
string literal or inside a line/block comment never produces a statement
split — every separator index is examined in the normal scan state and holds
the semicolon character, so any index examined with a string/comment flag set
is not a separator; and the specific example of the claim yields exactly two
statements, the first containing the quoted literal unsplit. -/
theorem claim_C4 :
    (∀ (cs : List Char) (j : Nat) (stj : ScanSt), (j, stj) ∈ scanTrace cs →
      (stj.inString = true ∨ stj.inLine = true ∨ stj.inBlock = true) →
      ¬ j ∈ splitIndices cs) ∧
    parse_sql_statements sqlC4 = some [sqlC4stmt, "SELECT 1"] := by
  constructor
  · intro cs j stj hmem hflag hsplit
    rw [splitIndices] at hsplit
    rw [scanTrace] at hmem
    obtain ⟨htr, _⟩ := scanAux_splits_mem _ _ _ _ hsplit
    have heq := scanAux_trace_uniq _ _ _ _ _ _ hmem htr
    rcases hflag with h | h | h <;> rw [heq] at h <;> simp [ScanSt.init] at h
  · decide

/-- C4 witness: in the example of the claim, the semicolon inside the literal
is examined at index 28 with the in-string flag set, and claim_C4 yields that
index 28 is not a separator. -/
theorem claim_C4_witness :
    ((28, (⟨true, false, false, false⟩ : ScanSt)) ∈ scanTrace sqlC4.data ∧
      (⟨true, false, false, false⟩ : ScanSt).inString = true) ∧
    ¬ 28 ∈ splitIndices sqlC4.data :=
  ⟨⟨by decide, by decide⟩,
    claim_C4.1 sqlC4.data 28 ⟨true, false, false, false⟩ (by decide) (Or.inl (by decide))⟩

/-- C5 counterexample: the comment-only input "-- c" segments into one
statement (the comment text), not zero statements as the claim requires. -/
theorem claim_C5_counterexample :
    parse_sql_statements "-- c" = some ["-- c"] ∧ ["-- c"] ≠ ([] : List String) :=
  ⟨by decide, by decide⟩

/-- C5 (amended): an input consisting solely of whitespace segments into zero
statements; an input consisting solely of comments is instead returned as a
single statement containing the (trimmed) comment text. -/
theorem claim_C5 :
    (∀ s : String, (∀ c ∈ s.data, isWhitespaceRust c = true) →
      parse_sql_statements s = some []) ∧
    parse_sql_statements "-- c" = some ["-- c"] ∧
    parse_sql_statements "/* c */" = some ["/* c */"] ∧
    parse_sql_statements "-- a\n/* b */" = some ["-- a\n/* b */"] := by
  refine ⟨?_, by decide, by decide, by decide⟩
  intro s h
  have hsp : splitIndices s.data = [] := by
    rw [splitIndices]
    exact scanAux_ws h _ 0
  rw [parse_sql_statements, hsp]
  rw [buildStatements]
  simp [byteDrop, trimCharsRust_ws h]

/-- C5 witness: the whitespace-only branch of claim_C5 applied at a concrete
whitespace string. -/
theorem claim_C5_witness :
    (∀ c ∈ ("  \n\t " : String).data, isWhitespaceRust c = true) ∧
    parse_sql_statements "  \n\t " = some [] :=
  ⟨by decide, claim_C5.1 "  \n\t " (by decide)⟩

/-- C8: segmentation is not a total function — the scan produces character
indices but the source slices the UTF-8 string with them as byte offsets, so
"é;" panics (slice at byte 1, inside the two-byte é), while "éx;y" slices at
a coincidentally valid but wrong boundary, silently mis-segmenting into
["é", ";y"] (the separator even survives inside the second statement). -/
theorem claim_C8 :
    parse_sql_statements "é;" = none ∧
    parse_sql_statements "éx;y" = some ["é", ";y"] :=
  ⟨by decide, by decide⟩

lemma kw_excl {p q rem : List Char} (hpq : ¬ p <+: q) (hqp : ¬ q <+: p)
    (hp : p <+: rem) : ¬ q <+: rem :=
  fun hq => (List.prefix_or_prefix_of_prefix hp hq).elim hpq hqp

/-- C6 (amended): the classifier skips leading whitespace and comments of the
uppercased statement and then matches by string PREFIX, not by first token:
it yields Select exactly when the remainder starts with SELECT or WITH,
Insert/Update/Delete exactly when it starts with the respective keyword, Ddl
exactly when it starts with CREATE, ALTER, DROP or TRUNCATE, and Error
(surfaced by the engine as the unable-to-determine diagnostic) exactly when
it starts with none of them; it returns no classification at all (an index
panic) exactly when the skip runs past the end, i.e. the meaningful content
ends inside a line comment with no terminating newline. -/
theorem claim_C6 (s : String) :
    (determine_query_type s = none ↔ (dqtUpper s).length < dqtSkip (dqtUpper s)) ∧
    (determine_query_type s = some .Select ↔
      dqtSkip (dqtUpper s) ≤ (dqtUpper s).length ∧
      ("SELECT".data <+: dqtRem s ∨ "WITH".data <+: dqtRem s)) ∧
    (determine_query_type s = some .Insert ↔
      dqtSkip (dqtUpper s) ≤ (dqtUpper s).length ∧ "INSERT".data <+: dqtRem s) ∧
    (determine_query_type s = some .Update ↔
      dqtSkip (dqtUpper s) ≤ (dqtUpper s).length ∧ "UPDATE".data <+: dqtRem s) ∧
    (determine_query_type s = some .Delete ↔
      dqtSkip (dqtUpper s) ≤ (dqtUpper s).length ∧ "DELETE".data <+: dqtRem s) ∧
    (determine_query_type s = some .Ddl ↔
      dqtSkip (dqtUpper s) ≤ (dqtUpper s).length ∧
      ("CREATE".data <+: dqtRem s ∨ "ALTER".data <+: dqtRem s ∨
       "DROP".data <+: dqtRem s ∨ "TRUNCATE".data <+: dqtRem s)) ∧
    (determine_query_type s = some .Error ↔
      dqtSkip (dqtUpper s) ≤ (dqtUpper s).length ∧
      ¬ ("SELECT".data <+: dqtRem s ∨ "WITH".data <+: dqtRem s ∨
         "INSERT".data <+: dqtRem s ∨ "UPDATE".data <+: dqtRem s ∨
         "DELETE".data <+: dqtRem s ∨ "CREATE".data <+: dqtRem s ∨
         "ALTER".data <+: dqtRem s ∨ "DROP".data <+: dqtRem s ∨
         "TRUNCATE".data <+: dqtRem s)) := by
  by_cases hle : dqtSkip (dqtUpper s) ≤ (dqtUpper s).length
  case neg =>
    refine ⟨by simp [determine_query_type, hle]; omega, ?_, ?_, ?_, ?_, ?_, ?_⟩ <;>
      simp [determine_query_type, hle]
  case pos =>
    have hrem : List.drop (dqtSkip (dqtUpper s)) (dqtUpper s) = dqtRem s := rfl
    have hchain : determine_query_type s = some (
        if "SELECT".data <+: dqtRem s ∨ "WITH".data <+: dqtRem s then QueryResultType.Select
        else if "INSERT".data <+: dqtRem s then QueryResultType.Insert
        else if "UPDATE".data <+: dqtRem s then QueryResultType.Update
        else if "DELETE".data <+: dqtRem s then QueryResultType.Delete
        else if "CREATE".data <+: dqtRem s ∨ "ALTER".data <+: dqtRem s ∨
                "DROP".data <+: dqtRem s ∨ "TRUNCATE".data <+: dqtRem s then QueryResultType.Ddl
        else QueryResultType.Error) := by
      simp [determine_query_type, hle, hrem]
    refine ⟨by rw [hchain]; simp; omega, ?_, ?_, ?_, ?_, ?_, ?_⟩
    · -- Select
      rw [hchain]
      simp only [Option.some.injEq]
      split_ifs with h1 h2 h3 h4 h5 <;> simp [hle, h1]
    · -- Insert
      rw [hchain]
      simp only [Option.some.injEq]
      split_ifs with h1 h2 h3 h4 h5
      · have hnB : ¬ "INSERT".data <+: dqtRem s := by
          rcases h1 with h | h
          · exact kw_excl (by decide) (by decide) h
          · exact kw_excl (by decide) (by decide) h
        simp [hnB]
      · simp [hle, h2]
      all_goals simp [h2]
    · -- Update
      rw [hchain]
      simp only [Option.some.injEq]
      split_ifs with h1 h2 h3 h4 h5
      · have hnC : ¬ "UPDATE".data <+: dqtRem s := by
          rcases h1 with h | h
          · exact kw_excl (by decide) (by decide) h
          · exact kw_excl (by decide) (by decide) h
        simp [hnC]
      · have hnC : ¬ "UPDATE".data <+: dqtRem s := kw_excl (by decide) (by decide) h2
        simp [hnC]
      · simp [hle, h3]
      all_goals simp [h3]
    · -- Delete
      rw [hchain]
      simp only [Option.some.injEq]
      split_ifs with h1 h2 h3 h4 h5
      · have hnD : ¬ "DELETE".data <+: dqtRem s := by
          rcases h1 with h | h
          · exact kw_excl (by decide) (by decide) h
          · exact kw_excl (by decide) (by decide) h
        simp [hnD]
      · have hnD : ¬ "DELETE".data <+: dqtRem s := kw_excl (by decide) (by decide) h2
        simp [hnD]
      · have hnD : ¬ "DELETE".data <+: dqtRem s := kw_excl (by decide) (by decide) h3
        simp [hnD]
      · simp [hle, h4]
      all_goals simp [h4]
    · -- Ddl
      rw [hchain]
      simp only [Option.some.injEq]
      split_ifs with h1 h2 h3 h4 h5
      · have e1 : ¬ "CREATE".data <+: dqtRem s := by
          rcases h1 with h | h
          · exact kw_excl (by decide) (by decide) h
          · exact kw_excl (by decide) (by decide) h
        have e2 : ¬ "ALTER".data <+: dqtRem s := by
          rcases h1 with h | h
          · exact kw_excl (by decide) (by decide) h
          · exact kw_excl (by decide) (by decide) h
        have e3 : ¬ "DROP".data <+: dqtRem s := by
          rcases h1 with h | h
          · exact kw_excl (by decide) (by decide) h
          · exact kw_excl (by decide) (by decide) h
        have e4 : ¬ "TRUNCATE".data <+: dqtRem s := by
          rcases h1 with h | h
          · exact kw_excl (by decide) (by decide) h
          · exact kw_excl (by decide) (by decide) h
        simp [e1, e2, e3, e4]
      · have e1 : ¬ "CREATE".data <+: dqtRem s := kw_excl (by decide) (by decide) h2
        have e2 : ¬ "ALTER".data <+: dqtRem s := kw_excl (by decide) (by decide) h2
        have e3 : ¬ "DROP".data <+: dqtRem s := kw_excl (by decide) (by decide) h2
        have e4 : ¬ "TRUNCATE".data <+: dqtRem s := kw_excl (by decide) (by decide) h2
        simp [e1, e2, e3, e4]
      · have e1 : ¬ "CREATE".data <+: dqtRem s := kw_excl (by decide) (by decide) h3
        have e2 : ¬ "ALTER".data <+: dqtRem s := kw_excl (by decide) (by decide) h3
        have e3 : ¬ "DROP".data <+: dqtRem s := kw_excl (by decide) (by decide) h3
        have e4 : ¬ "TRUNCATE".data <+: dqtRem s := kw_excl (by decide) (by decide) h3
        simp [e1, e2, e3, e4]
      · have e1 : ¬ "CREATE".data <+: dqtRem s := kw_excl (by decide) (by decide) h4
        have e2 : ¬ "ALTER".data <+: dqtRem s := kw_excl (by decide) (by decide) h4
        have e3 : ¬ "DROP".data <+: dqtRem s := kw_excl (by decide) (by decide) h4
        have e4 : ¬ "TRUNCATE".data <+: dqtRem s := kw_excl (by decide) (by decide) h4
        simp [e1, e2, e3, e4]
      · simp [hle, h5]
      · simp [h5]
    · -- Error
      rw [hchain]
      simp only [Option.some.injEq]
      split_ifs with h1 h2 h3 h4 h5
      · rcases h1 with h | h <;> simp [h]
      · simp [h2]
      · simp [h3]
      · simp [h4]
      · rcases h5 with h | h | h | h <;> simp [h]
      · push_neg at h1 h5
        obtain ⟨n1, n2⟩ := h1
        obtain ⟨n6, n7, n8, n9⟩ := h5
        simp [hle, n1, n2, h2, h3, h4, n6, n7, n8, n9]

/-- C6 counterexample: "WITHDRAWAL FROM accounts" is classified Select by the
code (prefix match on WITH), although its first meaningful token is
WITHDRAWAL, which is neither SELECT nor WITH — classification is not the
claimed first-token match. -/
theorem claim_C6_counterexample :
    determine_query_type "WITHDRAWAL FROM accounts" = some .Select ∧
    firstMeaningfulTokenSpec "WITHDRAWAL FROM accounts" = some "WITHDRAWAL" ∧
    "WITHDRAWAL" ≠ "SELECT" ∧ "WITHDRAWAL" ≠ "WITH" :=
  ⟨by decide, by decide, by decide, by decide⟩


lemma shapeOk_errorR (e : String) (p : Option ErrorPosition) (d : Nat) :
    shapeOk (QueryResult.errorR e p d) := by
  simp [shapeOk, QueryResult.errorR]

lemma shapeOk_execute_select (C : Conn σ) (sql : String) (start : Nat) (s : σ) :
    shapeOk (execute_select C sql start s).1 := by
  rw [execute_select]
  rcases C.query sql s with ⟨res, s₁⟩
  rcases res with e | rows
  · exact shapeOk_errorR _ _ _
  · rcases rows with _ | ⟨r0, rest⟩ <;> simp [shapeOk, QueryResult.selectR]

lemma shapeOk_execute_dml (C : Conn σ) (sql : String) (qt : QueryResultType)
    (hqt : qt = .Insert ∨ qt = .Update ∨ qt = .Delete) (start : Nat) (s : σ) :
    shapeOk (execute_dml C sql qt start s).1 := by
  rw [execute_dml]
  rcases C.exec sql s with ⟨res, s₁⟩
  rcases res with e | n
  · exact shapeOk_errorR _ _ _
  · rcases hqt with rfl | rfl | rfl <;> simp [shapeOk, QueryResult.dmlR]

lemma shapeOk_execute_ddl (C : Conn σ) (sql : String) (start : Nat) (s : σ) :
    shapeOk (execute_ddl C sql start s).1 := by
  rw [execute_ddl]
  rcases C.exec sql s with ⟨res, s₁⟩
  rcases res with e | n
  · exact shapeOk_errorR _ _ _
  · simp [shapeOk, QueryResult.ddlR]

lemma shapeOk_execute_single {C : Conn σ} {sql : String} {start : Nat} {s : σ}
    {r : QueryResult} {s₁ : σ} {tr : List String}
    (h : execute_single_statement C sql start s = some (r, s₁, tr)) : shapeOk r := by
  rw [execute_single_statement] at h
  rcases hdq : determine_query_type sql with _ | qt
  · rw [hdq] at h; cases h
  · rw [hdq] at h
    cases qt
    case Select =>
      rw [Option.some.injEq] at h
      have hx := shapeOk_execute_select C sql start s
      rw [h] at hx
      exact hx
    case Insert =>
      rw [Option.some.injEq] at h
      have hx := shapeOk_execute_dml C sql .Insert (by simp) start s
      rw [h] at hx
      exact hx
    case Update =>
      rw [Option.some.injEq] at h
      have hx := shapeOk_execute_dml C sql .Update (by simp) start s
      rw [h] at hx
      exact hx
    case Delete =>
      rw [Option.some.injEq] at h
      have hx := shapeOk_execute_dml C sql .Delete (by simp) start s
      rw [h] at hx
      exact hx
    case Ddl =>
      rw [Option.some.injEq] at h
      have hx := shapeOk_execute_ddl C sql start s
      rw [h] at hx
      exact hx
    case Error =>
      rw [Option.some.injEq, Prod.mk.injEq] at h
      rw [← h.1]
      exact shapeOk_errorR _ _ _

lemma shapeOk_execMultiLoop {C : Conn σ} {start : Nat} :
    ∀ (stmts : List String) (idx total : Nat) (last : Option QueryResult) (s : σ)
      (tracc : List String) (r : QueryResult) (s' : σ) (tr : List String),
      (∀ r₀, last = some r₀ → shapeOk r₀) →
      execMultiLoop C start stmts idx total last s tracc = some (r, s', tr) → shapeOk r := by
  intro stmts
  induction stmts with
  | nil =>
    intro idx total last s tracc r s' tr hlast h
    rcases hl : last with _ | r₀
    · rw [hl] at h
      simp only [execMultiLoop] at h
      rw [Option.some.injEq, Prod.mk.injEq] at h
      rw [← h.1]
      exact shapeOk_errorR _ _ _
    · rw [hl] at h
      simp only [execMultiLoop] at h
      rw [Option.some.injEq, Prod.mk.injEq] at h
      have hs := hlast r₀ hl
      rw [← h.1]
      obtain ⟨hc, hr, ha, he⟩ := hs
      refine ⟨hc, hr, ?_, he⟩
      show (if 0 < total ∧ r₀.affected_rows.isSome = true then some total
            else r₀.affected_rows).isSome = true ↔ _
      by_cases hcond : 0 < total ∧ r₀.affected_rows.isSome = true
      · rw [if_pos hcond]
        simp only [Option.isSome_some]
        exact ⟨fun _ => ha.mp hcond.2, fun _ => trivial⟩
      · rw [if_neg hcond]
        exact ha
  | cons stmt rest ih =>
    intro idx total last s tracc r s' tr hlast h
    rcases hsing : execute_single_statement C stmt (C.now s) s with _ | ⟨r₁, s₁, tr₁⟩
    · rw [execMultiLoop] at h
      simp only [hsing] at h
      exact Option.noConfusion h
    · rw [execMultiLoop] at h
      simp only [hsing] at h
      by_cases herr : r₁.result_type = .Error
      · rw [if_pos herr] at h
        rw [Option.some.injEq, Prod.mk.injEq] at h
        rw [← h.1]
        exact shapeOk_errorR _ _ _
      · rw [if_neg herr] at h
        exact ih _ _ _ _ _ _ _ _ (fun r₀ hr₀ => by
          rw [Option.some.injEq] at hr₀
          rw [← hr₀]
          exact shapeOk_execute_single hsing) h

/-- C7: every QueryResult returned by execute populates exactly the fields
relevant to its kind: columns and rows are present iff the kind is Select,
affected_rows iff the kind is Insert, Update or Delete, error iff the kind is
Error (duration_ms is a mandatory field of the record type). -/
theorem claim_C7 (σ : Type) (C : Conn σ) (s : σ) (sql : String)
    (r : QueryResult) (s' : σ) (tr : List String)
    (h : execute_sql C s sql = some (r, s', tr)) : shapeOk r := by
  rw [execute_sql] at h
  by_cases ht : trimCharsRust sql.data = []
  · simp only [ht, if_pos] at h
    rw [Option.some.injEq, Prod.mk.injEq] at h
    rw [← h.1]
    exact shapeOk_errorR _ _ _
  · simp only [ht, if_neg] at h
    rcases hp : parse_sql_statements (String.mk (trimCharsRust sql.data)) with _ | stmts
    · rw [hp] at h; cases h
    · rw [hp] at h
      match stmts with
      | [] =>
        simp only [execute_multiple_statements] at h
        exact shapeOk_execMultiLoop _ _ _ _ _ _ _ _ _ (by simp) h
      | [st] => exact shapeOk_execute_single h
      | st₁ :: st₂ :: more =>
        simp only [execute_multiple_statements] at h
        exact shapeOk_execMultiLoop _ _ _ _ _ _ _ _ _ (by simp) h

/-- C7 witness: claim_C7 applied to a concrete successful SELECT. -/
theorem claim_C7_witness :
    shapeOk (QueryResult.selectR [] [] 0) :=
  claim_C7 Unit
    { now := fun _ => 0, query := fun _ s => (.ok [], s), exec := fun _ s => (.ok 1, s) }
    () "SELECT 1" (QueryResult.selectR [] [] 0) () ["SELECT 1"] (by decide)

lemma extract_pos_charac (e : PgError) (p : ErrorPosition)
    (h : extract_error_position e = some p) : p.line = 1 ∧ columnSpec e p := by
  rcases e with d | msg
  · rw [extract_error_position] at h
    rcases hpos : d.position with _ | pos
    · simp only [hpos] at h
      rcases hparse : parseAtCharacter d.message with _ | n
      · simp only [hparse] at h
        exact Option.noConfusion h
      · simp only [hparse] at h
        rw [Option.some.injEq] at h
        refine ⟨by rw [← h], ?_⟩
        simp [columnSpec, hpos, hparse, ← h]
    · rcases pos with n | ⟨n, q⟩
      · simp only [hpos] at h
        rw [Option.some.injEq] at h
        refine ⟨by rw [← h], ?_⟩
        simp [columnSpec, hpos, ← h]
      · simp only [hpos] at h
        rw [Option.some.injEq] at h
        refine ⟨by rw [← h], ?_⟩
        simp [columnSpec, hpos, ← h]
  · rw [extract_error_position] at h
    exact Option.noConfusion h

lemma extract_pos_none (d : DbError)
    (h : extract_error_position (.db d) = none) :
    d.position = none ∧ parseAtCharacter d.message = none := by
  rw [extract_error_position] at h
  rcases hpos : d.position with _ | pos
  · simp only [hpos] at h
    rcases hparse : parseAtCharacter d.message with _ | n
    · exact ⟨rfl, rfl⟩
    · simp only [hparse] at h
      exact Option.noConfusion h
  · rcases pos with n | ⟨n, q⟩ <;> simp only [hpos] at h <;> exact Option.noConfusion h

lemma line1_execute_select (C : Conn σ) (sql : String) (start : Nat) (s : σ)
    (p : ErrorPosition) (hp : (execute_select C sql start s).1.error_position = some p) :
    p.line = 1 := by
  rw [execute_select] at hp
  rcases hq : C.query sql s with ⟨res, s₁⟩
  rw [hq] at hp
  rcases res with e | rows
  · have hx : extract_error_position e = some p := hp
    exact (extract_pos_charac e p hx).1
  · rcases rows with _ | ⟨r0, rest⟩ <;> exact Option.noConfusion hp

lemma line1_execute_dml (C : Conn σ) (sql : String) (qt : QueryResultType) (start : Nat) (s : σ)
    (p : ErrorPosition) (hp : (execute_dml C sql qt start s).1.error_position = some p) :
    p.line = 1 := by
  rw [execute_dml] at hp
  rcases hq : C.exec sql s with ⟨res, s₁⟩
  rw [hq] at hp
  rcases res with e | n
  · have hx : extract_error_position e = some p := hp
    exact (extract_pos_charac e p hx).1
  · exact Option.noConfusion hp

lemma line1_execute_ddl (C : Conn σ) (sql : String) (start : Nat) (s : σ)
    (p : ErrorPosition) (hp : (execute_ddl C sql start s).1.error_position = some p) :
    p.line = 1 := by
  rw [execute_ddl] at hp
  rcases hq : C.exec sql s with ⟨res, s₁⟩
  rw [hq] at hp
  rcases res with e | n
  · have hx : extract_error_position e = some p := hp
    exact (extract_pos_charac e p hx).1
  · exact Option.noConfusion hp

lemma line1_execute_single {C : Conn σ} {sql : String} {start : Nat} {s : σ}
    {r : QueryResult} {s₁ : σ} {tr : List String}
    (h : execute_single_statement C sql start s = some (r, s₁, tr))
    (p : ErrorPosition) (hp : r.error_position = some p) : p.line = 1 := by
  rw [execute_single_statement] at h
  rcases hdq : determine_query_type sql with _ | qt
  · rw [hdq] at h; exact Option.noConfusion h
  · rw [hdq] at h
    cases qt
    case Select =>
      rw [Option.some.injEq] at h
      refine line1_execute_select C sql start s p ?_
      rw [h]
      exact hp
    case Insert =>
      rw [Option.some.injEq] at h
      refine line1_execute_dml C sql .Insert start s p ?_
      rw [h]
      exact hp
    case Update =>
      rw [Option.some.injEq] at h
      refine line1_execute_dml C sql .Update start s p ?_
      rw [h]
      exact hp
    case Delete =>
      rw [Option.some.injEq] at h
      refine line1_execute_dml C sql .Delete start s p ?_
      rw [h]
      exact hp
    case Ddl =>
      rw [Option.some.injEq] at h
      refine line1_execute_ddl C sql start s p ?_
      rw [h]
      exact hp
    case Error =>
      rw [Option.some.injEq, Prod.mk.injEq] at h
      rw [← h.1] at hp
      exact Option.noConfusion hp

lemma line1_execMultiLoop {C : Conn σ} {start : Nat} :
    ∀ (stmts : List String) (idx total : Nat) (last : Option QueryResult) (s : σ)
      (tracc : List String) (r : QueryResult) (s' : σ) (tr : List String),
      (∀ r₀ p, last = some r₀ → r₀.error_position = some p → p.line = 1) →
      execMultiLoop C start stmts idx total last s tracc = some (r, s', tr) →
      ∀ p, r.error_position = some p → p.line = 1 := by
  intro stmts
  induction stmts with
  | nil =>
    intro idx total last s tracc r s' tr hlast h p hp
    rcases hl : last with _ | r₀
    · rw [hl] at h
      simp only [execMultiLoop] at h
      rw [Option.some.injEq, Prod.mk.injEq] at h
      rw [← h.1] at hp
      exact Option.noConfusion hp
    · rw [hl] at h
      simp only [execMultiLoop] at h
      rw [Option.some.injEq, Prod.mk.injEq] at h
      rw [← h.1] at hp
      exact hlast r₀ p hl hp
  | cons stmt rest ih =>
    intro idx total last s tracc r s' tr hlast h p hp
    rcases hsing : execute_single_statement C stmt (C.now s) s with _ | ⟨r₁, s₁, tr₁⟩
    · rw [execMultiLoop] at h
      simp only [hsing] at h
      exact Option.noConfusion h
    · rw [execMultiLoop] at h
      simp only [hsing] at h
      by_cases herr : r₁.result_type = .Error
      · rw [if_pos herr] at h
        rw [Option.some.injEq, Prod.mk.injEq] at h
        rw [← h.1] at hp
        exact line1_execute_single hsing p hp
      · rw [if_neg herr] at h
        exact ih _ _ _ _ _ _ _ _ (fun r₀ q hr₀ hq => by
          rw [Option.some.injEq] at hr₀
          rw [← hr₀] at hq
          exact line1_execute_single hsing q hq) h p hp

/-- C9: whenever execute returns a result with an error position, its line is
1; and extract_error_position yields line 1 with the column taken from the
engine-reported structured offset (original or internally-rewritten) or, when
that is absent, from the number parsed after "at character " in the raw
message; when neither is available it yields no position. -/
theorem claim_C9 :
    (∀ (σ : Type) (C : Conn σ) (s : σ) (sql : String) (r : QueryResult) (s' : σ)
      (tr : List String) (p : ErrorPosition),
      execute_sql C s sql = some (r, s', tr) → r.error_position = some p → p.line = 1) ∧
    (∀ (e : PgError) (p : ErrorPosition),
      extract_error_position e = some p → p.line = 1 ∧ columnSpec e p) ∧
    (∀ d : DbError, extract_error_position (.db d) = none →
      d.position = none ∧ parseAtCharacter d.message = none) := by
  refine ⟨?_, extract_pos_charac, extract_pos_none⟩
  intro σ C s sql r s' tr p h hp
  rw [execute_sql] at h
  by_cases ht : trimCharsRust sql.data = []
  · simp only [ht, if_pos] at h
    rw [Option.some.injEq, Prod.mk.injEq] at h
    rw [← h.1] at hp
    exact Option.noConfusion hp
  · simp only [ht, if_neg] at h
    rcases hps : parse_sql_statements (String.mk (trimCharsRust sql.data)) with _ | stmts
    · rw [hps] at h; exact Option.noConfusion h
    · rw [hps] at h
      match stmts with
      | [] =>
        simp only [execute_multiple_statements] at h
        exact line1_execMultiLoop _ _ _ _ _ _ _ _ _ (by simp) h p hp
      | [st] => exact line1_execute_single h p hp
      | st₁ :: st₂ :: more =>
        simp only [execute_multiple_statements] at h
        exact line1_execMultiLoop _ _ _ _ _ _ _ _ _ (by simp) h p hp

/-- The driver error used by the C9 witness. -/
def pgErrW : PgError := .db ⟨"42601", "syntax error", some (.original 7)⟩

/-- The connection used by the C9 witness: exec reports pgErrW. -/
def connW9 : Conn Unit :=
  { now := fun _ => 0
    query := fun _ s => (.ok [], s)
    exec := fun _ s => (.error pgErrW, s) }

/-- C9 witness: a concrete engine error with structured offset 7 surfaces from
execute with position line 1 (via claim_C9), and the extracted position is
exactly line 1, column 7 with the claimed column provenance. -/
theorem claim_C9_witness :
    (execute_sql connW9 () "DELETE FROM t" =
      some (QueryResult.errorR (format_error_message pgErrW) (some ⟨1, 7⟩) 0, (),
        ["DELETE FROM t"])) ∧
    (⟨1, 7⟩ : ErrorPosition).line = 1 ∧
    extract_error_position pgErrW = some ⟨1, 7⟩ ∧
    columnSpec pgErrW ⟨1, 7⟩ :=
  ⟨by decide,
   claim_C9.1 Unit connW9 () "DELETE FROM t"
     (QueryResult.errorR (format_error_message pgErrW) (some ⟨1, 7⟩) 0) ()
     ["DELETE FROM t"] ⟨1, 7⟩ (by decide) (by decide),
   by decide,
   (claim_C9.2.1 pgErrW ⟨1, 7⟩ (by decide)).2⟩

/-- A benign concrete connection: every query yields no rows, every exec
reports one affected row, the clock stays at 0. -/
def connOk : Conn Unit :=
  { now := fun _ => 0
    query := fun _ s => (.ok [], s)
    exec := fun _ s => (.ok 1, s) }

/-- C10: an input whose trimmed text is non-empty but which segments into
zero statements makes execute return the Error result "No statements to
execute" (with no engine call, hence an unchanged state, an empty trace and
zero elapsed duration) rather than a success result or a fault. -/
theorem claim_C10 (σ : Type) (C : Conn σ) (s : σ) (sql : String)
    (ht : trimCharsRust sql.data ≠ [])
    (hp : parse_sql_statements (String.mk (trimCharsRust sql.data)) = some []) :
    execute_sql C s sql =
      some (QueryResult.errorR "No statements to execute" none 0, s, []) := by
  rw [execute_sql]
  simp only [ht, if_neg, hp]
  simp [execute_multiple_statements, execMultiLoop, Nat.sub_self]

/-- C10 witness: claim_C10 applied to the input ";". -/
theorem claim_C10_witness :
    trimCharsRust (";" : String).data ≠ [] ∧
    parse_sql_statements (String.mk (trimCharsRust (";" : String).data)) = some [] ∧
    execute_sql connOk () ";" =
      some (QueryResult.errorR "No statements to execute" none 0, (), []) :=
  ⟨by decide, by decide, claim_C10 Unit connOk () ";" (by decide) (by decide)⟩

lemma execute_sql_multi (C : Conn σ) (s : σ) (sql : String) (stmts : List String)
    (ht : trimCharsRust sql.data ≠ [])
    (hparse : parse_sql_statements (String.mk (trimCharsRust sql.data)) = some stmts)
    (hmulti : ∀ st, stmts ≠ [st]) :
    execute_sql C s sql = execute_multiple_statements C stmts (C.now s) s := by
  rw [execute_sql]
  simp only [ht, if_neg, hparse]
  rcases stmts with _ | ⟨a, _ | ⟨b, l⟩⟩
  · rfl
  · exact absurd rfl (hmulti a)
  · rfl

lemma execMultiLoop_error (C : Conn σ) (start : Nat) :
    ∀ (pre : List String) (bad : String) (rest : List String) (rs : List QueryResult)
      (s s₁ : σ) (tr₁ : List String) (rErr : QueryResult) (s₂ : σ) (tr₂ : List String)
      (idx total : Nat) (last : Option QueryResult) (tracc : List String),
      runSeq C pre s = some (rs, s₁, tr₁) →
      (∀ r ∈ rs, r.result_type ≠ .Error) →
      execute_single_statement C bad (C.now s₁) s₁ = some (rErr, s₂, tr₂) →
      rErr.result_type = .Error →
      execMultiLoop C start (pre ++ bad :: rest) idx total last s tracc =
        some (QueryResult.errorR
            ("Error in statement " ++ toString (idx + pre.length + 1) ++ ": " ++ rErr.error.getD "")
            rErr.error_position (C.now s₂ - start), s₂, tracc ++ (tr₁ ++ tr₂)) := by
  intro pre
  induction pre with
  | nil =>
    intro bad rest rs s s₁ tr₁ rErr s₂ tr₂ idx total last tracc hrun hok hbad herr
    simp only [runSeq, Option.some.injEq, Prod.mk.injEq] at hrun
    obtain ⟨hrs, hs₁, htr₁⟩ := hrun
    subst hs₁ htr₁
    rw [List.nil_append, execMultiLoop]
    simp only [hbad]
    rw [if_pos herr]
    simp

  | cons p pre ih =>
    intro bad rest rs s s₁ tr₁ rErr s₂ tr₂ idx total last tracc hrun hok hbad herr
    rw [runSeq] at hrun
    rcases hp0 : execute_single_statement C p (C.now s) s with _ | ⟨r₀, s₀, tr₀⟩
    · simp only [hp0] at hrun
      exact Option.noConfusion hrun
    · simp only [hp0] at hrun
      rcases hrun2 : runSeq C pre s₀ with _ | ⟨rs', s₁', trs⟩
      · simp only [hrun2] at hrun
        exact Option.noConfusion hrun
      · simp only [hrun2, Option.some.injEq, Prod.mk.injEq] at hrun
        obtain ⟨hrs, hs₁, htr₁⟩ := hrun
        subst hrs
        subst hs₁
        subst htr₁
        have hr₀ : r₀.result_type ≠ .Error := hok r₀ (by simp)
        have hok' : ∀ r ∈ rs', r.result_type ≠ .Error := fun r hr => hok r (by simp [hr])
        rw [List.cons_append, execMultiLoop]
        simp only [hp0]
        rw [if_neg hr₀]
        rw [ih bad rest rs' s₀ s₁' trs rErr s₂ tr₂ (idx + 1) (total + r₀.affected_rows.getD 0)
          (some r₀) (tracc ++ tr₀) hrun2 hok' hbad herr]
        have harith : idx + 1 + pre.length + 1 = idx + (p :: pre).length + 1 := by
          simp [List.length_cons]
          omega
        rw [harith]
        simp [List.append_assoc]

/-- C2: when the input segments into two or more statements, execute runs
them strictly in order and, at the first statement whose result kind is
Error, stops (the trace is exactly the engine calls of the preceding
statements plus the failing one, and the state is the one reached there) and
returns an Error result whose message is "Error in statement i: m" with i the
1-based index of the failing statement and m its underlying message, and
whose duration is the elapsed time from entry to the failure. -/
theorem claim_C2 (σ : Type) (C : Conn σ) (s : σ) (sql : String)
    (stmts pre rest : List String) (bad : String) (rs : List QueryResult)
    (s₁ : σ) (tr₁ : List String) (rErr : QueryResult) (s₂ : σ) (tr₂ : List String)
    (hparse : parse_sql_statements (String.mk (trimCharsRust sql.data)) = some stmts)
    (hsplit : stmts = pre ++ bad :: rest)
    (hlen : 2 ≤ stmts.length)
    (hrun : runSeq C pre s = some (rs, s₁, tr₁))
    (hok : ∀ r ∈ rs, r.result_type ≠ .Error)
    (hbad : execute_single_statement C bad (C.now s₁) s₁ = some (rErr, s₂, tr₂))
    (herr : rErr.result_type = .Error) :
    execute_sql C s sql =
      some (QueryResult.errorR
        ("Error in statement " ++ toString (pre.length + 1) ++ ": " ++ rErr.error.getD "")
        rErr.error_position (C.now s₂ - C.now s), s₂, tr₁ ++ tr₂) := by
  subst hsplit
  have ht : trimCharsRust sql.data ≠ [] := by
    intro h0
    rw [h0] at hparse
    have hempty : parse_sql_statements (String.mk ([] : List Char)) = some [] := by decide
    rw [hempty, Option.some.injEq] at hparse
    rcases pre with _ | ⟨p₀, pre'⟩ <;> simp at hparse
  have hmulti : ∀ st, pre ++ bad :: rest ≠ [st] := by
    intro st hcon
    rw [hcon] at hlen
    simp at hlen
  rw [execute_sql_multi C s sql _ ht hparse hmulti]
  rw [execute_multiple_statements]
  rw [execMultiLoop_error C (C.now s) pre bad rest rs s s₁ tr₁ rErr s₂ tr₂ 0 0 none []
    hrun hok hbad herr]
  simp

/-- The connection used by the C2 witness: exec fails on the second DROP. -/
def connW2 : Conn Unit :=
  { now := fun _ => 0
    query := fun _ s => (.ok [], s)
    exec := fun sql s =>
      if sql = "DROP TABLE b" then
        (.error (.db ⟨"42P01", "table b does not exist", none⟩), s)
      else (.ok 0, s) }

/-- C2 witness: claim_C2 applied to three DDL statements whose second fails;
the third is never issued and the message carries index 2. -/
theorem claim_C2_witness :
    (parse_sql_statements
        (String.mk (trimCharsRust ("DROP TABLE a; DROP TABLE b; DROP TABLE c" : String).data)) =
      some ["DROP TABLE a", "DROP TABLE b", "DROP TABLE c"]) ∧
    execute_sql connW2 () "DROP TABLE a; DROP TABLE b; DROP TABLE c" =
      some (QueryResult.errorR
        ("Error in statement " ++ toString (2 : Nat) ++ ": " ++
          (format_error_message (.db ⟨"42P01", "table b does not exist", none⟩)))
        none 0, (), ["DROP TABLE a", "DROP TABLE b"]) :=
  ⟨by decide,
    by
      have h := claim_C2 Unit connW2 () "DROP TABLE a; DROP TABLE b; DROP TABLE c"
        ["DROP TABLE a", "DROP TABLE b", "DROP TABLE c"]
        ["DROP TABLE a"] ["DROP TABLE c"] "DROP TABLE b"
        [QueryResult.ddlR 0] () ["DROP TABLE a"]
        (QueryResult.errorR
          (format_error_message (.db ⟨"42P01", "table b does not exist", none⟩)) none 0)
        () ["DROP TABLE b"]
        (by decide) (by decide) (by decide) (by decide) (by decide) (by decide) (by decide)
      simpa using h⟩

lemma execMultiLoop_success (C : Conn σ) (start : Nat) :
    ∀ (stmts : List String) (rs : List QueryResult) (s s₁ : σ) (tr : List String)
      (idx total : Nat) (last : Option QueryResult) (tracc : List String),
      stmts ≠ [] →
      runSeq C stmts s = some (rs, s₁, tr) →
      (∀ r ∈ rs, r.result_type ≠ .Error) →
      ∃ rLast, rs.getLast? = some rLast ∧
        execMultiLoop C start stmts idx total last s tracc =
          some ({ rLast with
                    duration_ms := C.now s₁ - start
                    affected_rows :=
                      if 0 < total + (rs.map (fun r => r.affected_rows.getD 0)).sum ∧
                          rLast.affected_rows.isSome = true
                      then some (total + (rs.map (fun r => r.affected_rows.getD 0)).sum)
                      else rLast.affected_rows }, s₁, tracc ++ tr) := by
  intro stmts
  induction stmts with
  | nil =>
    intro rs s s₁ tr idx total last tracc hne
    exact absurd rfl hne
  | cons st rest ih =>
    intro rs s s₁ tr idx total last tracc hne hrun hok
    rw [runSeq] at hrun
    rcases hp0 : execute_single_statement C st (C.now s) s with _ | ⟨r₀, s₀, tr₀⟩
    · simp only [hp0] at hrun
      exact Option.noConfusion hrun
    · simp only [hp0] at hrun
      rcases hrun2 : runSeq C rest s₀ with _ | ⟨rs', s₁', trs⟩
      · simp only [hrun2] at hrun
        exact Option.noConfusion hrun
      · simp only [hrun2, Option.some.injEq, Prod.mk.injEq] at hrun
        obtain ⟨hrs, hs₁, htr⟩ := hrun
        subst hrs
        subst hs₁
        subst htr
        have hr₀ : r₀.result_type ≠ .Error := hok r₀ (by simp)
        by_cases hrestnil : rest = []
        · subst hrestnil
          simp only [runSeq, Option.some.injEq, Prod.mk.injEq] at hrun2
          obtain ⟨h1, h2, h3⟩ := hrun2
          subst h1
          subst h2
          subst h3
          refine ⟨r₀, by simp, ?_⟩
          rw [execMultiLoop]
          simp only [hp0]
          rw [if_neg hr₀]
          simp [execMultiLoop]
        · obtain ⟨rLast, hgl, hloop⟩ := ih rs' s₀ s₁' trs (idx + 1)
            (total + r₀.affected_rows.getD 0) (some r₀) (tracc ++ tr₀) hrestnil hrun2
            (fun r hr => hok r (by simp [hr]))
          refine ⟨rLast, ?_, ?_⟩
          · have hrs'ne : rs' ≠ [] := by
              intro h0
              rw [h0] at hgl
              simp at hgl
            rcases rs' with _ | ⟨x, xs⟩
            · exact absurd rfl hrs'ne
            · rw [List.getLast?_cons_cons]
              exact hgl
          · rw [execMultiLoop]
            simp only [hp0]
            rw [if_neg hr₀]
            rw [hloop]
            have hsum : total + r₀.affected_rows.getD 0 +
                (rs'.map (fun r => r.affected_rows.getD 0)).sum =
                total + ((r₀ :: rs').map (fun r => r.affected_rows.getD 0)).sum := by
              simp [List.sum_cons]
              omega
            rw [hsum]
            simp [List.append_assoc]

/-- C3 (amended): when the input segments into two or more statements and all
of them succeed, execute returns the LAST statement's result, with its
duration replaced by the total elapsed time, and with its affectedRows
replaced by the accumulated sum exactly when that sum is nonzero AND the last
result itself carries an affectedRows value (a trailing Select or Ddl keeps
affectedRows absent, whatever the earlier statements affected). -/
theorem claim_C3 (σ : Type) (C : Conn σ) (s : σ) (sql : String)
    (stmts : List String) (rs : List QueryResult) (s₁ : σ) (tr : List String)
    (rLast : QueryResult)
    (hparse : parse_sql_statements (String.mk (trimCharsRust sql.data)) = some stmts)
    (hlen : 2 ≤ stmts.length)
    (hrun : runSeq C stmts s = some (rs, s₁, tr))
    (hok : ∀ r ∈ rs, r.result_type ≠ .Error)
    (hlast : rs.getLast? = some rLast) :
    execute_sql C s sql =
      some ({ rLast with
                duration_ms := C.now s₁ - C.now s
                affected_rows :=
                  if 0 < (rs.map (fun r => r.affected_rows.getD 0)).sum ∧
                      rLast.affected_rows.isSome = true
                  then some ((rs.map (fun r => r.affected_rows.getD 0)).sum)
                  else rLast.affected_rows }, s₁, tr) := by
  have hne : stmts ≠ [] := by
    intro h0
    rw [h0] at hlen
    simp at hlen
  have ht : trimCharsRust sql.data ≠ [] := by
    intro h0
    rw [h0] at hparse
    have hempty : parse_sql_statements (String.mk ([] : List Char)) = some [] := by decide
    rw [hempty, Option.some.injEq] at hparse
    rw [← hparse] at hlen
    simp at hlen
  have hmulti : ∀ st, stmts ≠ [st] := by
    intro st hcon
    rw [hcon] at hlen
    simp at hlen
  rw [execute_sql_multi C s sql _ ht hparse hmulti]
  rw [execute_multiple_statements]
  obtain ⟨rL, hgl, hloop⟩ := execMultiLoop_success C (C.now s) stmts rs s s₁ tr 0 0 none []
    hne hrun hok
  rw [hgl, Option.some.injEq] at hlast
  subst hlast
  rw [hloop]
  simp

/-- C3 counterexample: an UPDATE affecting one row followed by a successful
SELECT — the statements' accumulated affectedRows sum is 1 (nonzero), yet the
returned result keeps affectedRows absent, because the code only installs the
sum when the LAST result carries an affectedRows value; the claim as stated
requires affectedRows = 1 here. -/
theorem claim_C3_counterexample :
    execute_sql connOk () "UPDATE t SET a = 1; SELECT 1" =
      some (QueryResult.selectR [] [] 0, (), ["UPDATE t SET a = 1", "SELECT 1"]) ∧
    (QueryResult.selectR [] [] 0).affected_rows = none ∧
    (runSeq connOk ["UPDATE t SET a = 1", "SELECT 1"] ()).map
        (fun x => (x.1.map (fun r => r.affected_rows.getD 0)).sum) = some 1 ∧
    (1 : Nat) ≠ 0 :=
  ⟨by decide, by decide, by decide, by decide⟩

/-- C3 witness: claim_C3 applied to two UPDATEs each affecting one row — the
aggregated result has kind Update and affectedRows 2. -/
theorem claim_C3_witness :
    (parse_sql_statements
        (String.mk (trimCharsRust ("UPDATE a SET x = 1; UPDATE b SET x = 2" : String).data)) =
      some ["UPDATE a SET x = 1", "UPDATE b SET x = 2"]) ∧
    execute_sql connOk () "UPDATE a SET x = 1; UPDATE b SET x = 2" =
      some (QueryResult.dmlR .Update 2 0, (), ["UPDATE a SET x = 1", "UPDATE b SET x = 2"]) :=
  ⟨by decide,
    by
      have h := claim_C3 Unit connOk () "UPDATE a SET x = 1; UPDATE b SET x = 2"
        ["UPDATE a SET x = 1", "UPDATE b SET x = 2"]
        [QueryResult.dmlR .Update 1 0, QueryResult.dmlR .Update 1 0] ()
        ["UPDATE a SET x = 1", "UPDATE b SET x = 2"]
        (QueryResult.dmlR .Update 1 0)
        (by decide) (by decide) (by decide) (by decide) (by decide)
      simpa using h⟩

/-- Spec-side device: build the statements of all items in order, stopping at
the first construction failure. -/
def buildAll (build : α → Except String String) : List α → Except String (List String)
  | [] => .ok []
  | it :: rest =>
    match build it with
    | .error e => .error e
    | .ok q =>
      match buildAll build rest with
      | .error e => .error e
      | .ok qs => .ok (q :: qs)

/-- Whether `pat` occurs as a contiguous segment of `l`. -/
def containsSeg (pat : List Char) : List Char → Bool
  | [] => pat.isEmpty
  | c :: t => pat.isPrefixOf (c :: t) || containsSeg pat t

lemma batchLoop_commit (C : BatchConn σ) (build : α → Except String String)
    (m f1 f2 : String) :
    ∀ (items : List α) (sqls : List String) (ns : List Nat) (s s₁ : σ) (idx total : Nat),
      buildAll build items = .ok sqls →
      execAllOk C sqls s = some (ns, s₁) →
      batchLoop C build m f1 f2 items idx total s =
        (match C.query "COMMIT" s₁ with
         | (.ok _, s₂) => (.successResp (total + ns.sum), s₂, sqls ++ ["COMMIT"])
         | (.error e, s₂) =>
           (.errorResp ("提交事务失败: " ++ e ++ ". 所有更改已回滚"),
             (C.query "ROLLBACK" s₂).2, sqls ++ ["COMMIT", "ROLLBACK"])) := by
  intro items
  induction items with
  | nil =>
    intro sqls ns s s₁ idx total hb he
    simp only [buildAll, Except.ok.injEq] at hb
    subst hb
    simp only [execAllOk, Option.some.injEq, Prod.mk.injEq] at he
    obtain ⟨h1, h2⟩ := he
    subst h1
    subst h2
    rw [batchLoop]
    rcases hq : C.query "COMMIT" s with ⟨qres, s₂⟩
    rcases qres with e | u <;> simp [hq]
  | cons it rest ih =>
    intro sqls ns s s₁ idx total hb he
    rw [buildAll] at hb
    rcases hbi : build it with e | q
    · simp only [hbi] at hb
      exact Except.noConfusion hb
    · simp only [hbi] at hb
      rcases hba : buildAll build rest with e | qs
      · simp only [hba] at hb
        exact Except.noConfusion hb
      · simp only [hba, Except.ok.injEq] at hb
        subst hb
        rw [execAllOk] at he
        rcases hex : C.exec q s with ⟨eres, s₀⟩
        rcases eres with e | n
        · simp only [hex] at he
          exact Option.noConfusion he
        · simp only [hex] at he
          rcases hea : execAllOk C qs s₀ with _ | ⟨ns', s₁'⟩
          · simp only [hea] at he
            exact Option.noConfusion he
          · simp only [hea, Option.some.injEq, Prod.mk.injEq] at he
            obtain ⟨h1, h2⟩ := he
            subst h1
            subst h2
            rw [batchLoop]
            simp only [hbi, hex]
            rw [ih qs ns' s₀ s₁' (idx + 1) (total + n) hba hea]
            rcases hq : C.query "COMMIT" s₁' with ⟨qres, s₂⟩
            rcases qres with e | u
            · simp only [hq, List.cons_append]
            · simp only [hq, List.cons_append]
              have harr : total + n + ns'.sum = total + (n :: ns').sum := by
                rw [List.sum_cons]
                omega
              rw [harr]

lemma batchLoop_buildFail (C : BatchConn σ) (build : α → Except String String)
    (m f1 f2 : String) :
    ∀ (pre : List α) (bad : α) (rest : List α) (sqls : List String) (ns : List Nat)
      (s s₁ : σ) (idx total : Nat) (e : String),
      buildAll build pre = .ok sqls →
      execAllOk C sqls s = some (ns, s₁) →
      build bad = .error e →
      batchLoop C build m f1 f2 (pre ++ bad :: rest) idx total s =
        (.errorResp (m ++ e), (C.query "ROLLBACK" s₁).2, sqls ++ ["ROLLBACK"]) := by
  intro pre
  induction pre with
  | nil =>
    intro bad rest sqls ns s s₁ idx total e hb he hbad
    simp only [buildAll, Except.ok.injEq] at hb
    subst hb
    simp only [execAllOk, Option.some.injEq, Prod.mk.injEq] at he
    obtain ⟨h1, h2⟩ := he
    subst h1
    subst h2
    rw [List.nil_append, batchLoop]
    simp [hbad]
  | cons it pre ih =>
    intro bad rest sqls ns s s₁ idx total e hb he hbad
    rw [buildAll] at hb
    rcases hbi : build it with e' | q
    · simp only [hbi] at hb
      exact Except.noConfusion hb
    · simp only [hbi] at hb
      rcases hba : buildAll build pre with e' | qs
      · simp only [hba] at hb
        exact Except.noConfusion hb
      · simp only [hba, Except.ok.injEq] at hb
        subst hb
        rw [execAllOk] at he
        rcases hex : C.exec q s with ⟨eres, s₀⟩
        rcases eres with e' | n
        · simp only [hex] at he
          exact Option.noConfusion he
        · simp only [hex] at he
          rcases hea : execAllOk C qs s₀ with _ | ⟨ns', s₁'⟩
          · simp only [hea] at he
            exact Option.noConfusion he
          · simp only [hea, Option.some.injEq, Prod.mk.injEq] at he
            obtain ⟨h1, h2⟩ := he
            subst h1
            subst h2
            rw [List.cons_append, batchLoop]
            simp only [hbi, hex]
            rw [ih bad rest qs ns' s₀ s₁' (idx + 1) (total + n) e hba hea hbad]
            simp only [List.cons_append]

lemma batchLoop_execFail (C : BatchConn σ) (build : α → Except String String)
    (m f1 f2 : String) :
    ∀ (pre : List α) (bad : α) (rest : List α) (sqls : List String) (ns : List Nat)
      (s s₁ s₂ : σ) (idx total : Nat) (q e : String),
      buildAll build pre = .ok sqls →
      execAllOk C sqls s = some (ns, s₁) →
      build bad = .ok q →
      C.exec q s₁ = (.error e, s₂) →
      batchLoop C build m f1 f2 (pre ++ bad :: rest) idx total s =
        (.errorResp (f1 ++ toString (idx + pre.length + 1) ++ f2 ++ e ++ ". 所有更改已回滚"),
          (C.query "ROLLBACK" s₂).2, sqls ++ [q, "ROLLBACK"]) := by
  intro pre
  induction pre with
  | nil =>
    intro bad rest sqls ns s s₁ s₂ idx total q e hb he hbad hexe
    simp only [buildAll, Except.ok.injEq] at hb
    subst hb
    simp only [execAllOk, Option.some.injEq, Prod.mk.injEq] at he
    obtain ⟨h1, h2⟩ := he
    subst h1
    subst h2
    rw [List.nil_append, batchLoop]
    simp [hbad, hexe]
  | cons it pre ih =>
    intro bad rest sqls ns s s₁ s₂ idx total q e hb he hbad hexe
    rw [buildAll] at hb
    rcases hbi : build it with e' | q'
    · simp only [hbi] at hb
      exact Except.noConfusion hb
    · simp only [hbi] at hb
      rcases hba : buildAll build pre with e' | qs
      · simp only [hba] at hb
        exact Except.noConfusion hb
      · simp only [hba, Except.ok.injEq] at hb
        subst hb
        rw [execAllOk] at he
        rcases hex : C.exec q' s with ⟨eres, s₀⟩
        rcases eres with e' | n
        · simp only [hex] at he
          exact Option.noConfusion he
        · simp only [hex] at he
          rcases hea : execAllOk C qs s₀ with _ | ⟨ns', s₁'⟩
          · simp only [hea] at he
            exact Option.noConfusion he
          · simp only [hea, Option.some.injEq, Prod.mk.injEq] at he
            obtain ⟨h1, h2⟩ := he
            subst h1
            subst h2
            rw [List.cons_append, batchLoop]
            simp only [hbi, hex]
            rw [ih bad rest qs ns' s₀ s₁' s₂ (idx + 1) (total + n) q e hba hea hbad hexe]
            have harith : idx + 1 + pre.length + 1 = idx + (it :: pre).length + 1 := by
              simp [List.length_cons]
              omega
            rw [harith]
            simp only [List.cons_append]

lemma batch_update_rows_eq (C : BatchConn σ) (s s₀ : σ) (schema table : String)
    (updates : List RowUpdate) (hne : updates ≠ [])
    (hbegin : C.query "BEGIN" s = (.ok (), s₀)) :
    batch_update_rows C s schema table updates =
      ((batchLoop C (build_update_statement schema table)
          "构建UPDATE语句失败: " "更新操作 " " 失败: " updates 0 0 s₀).1,
        (batchLoop C (build_update_statement schema table)
          "构建UPDATE语句失败: " "更新操作 " " 失败: " updates 0 0 s₀).2.1,
        "BEGIN" :: (batchLoop C (build_update_statement schema table)
          "构建UPDATE语句失败: " "更新操作 " " 失败: " updates 0 0 s₀).2.2) := by
  rw [batch_update_rows]
  simp [hne, hbegin]

lemma batch_insert_rows_eq (C : BatchConn σ) (s s₀ : σ) (schema table : String)
    (rows : List (List (String × JValue))) (hne : rows ≠ [])
    (hbegin : C.query "BEGIN" s = (.ok (), s₀)) :
    batch_insert_rows C s schema table rows =
      ((batchLoop C (build_insert_statement schema table)
          "构建INSERT语句失败: " "插入操作 " " 失败: " rows 0 0 s₀).1,
        (batchLoop C (build_insert_statement schema table)
          "构建INSERT语句失败: " "插入操作 " " 失败: " rows 0 0 s₀).2.1,
        "BEGIN" :: (batchLoop C (build_insert_statement schema table)
          "构建INSERT语句失败: " "插入操作 " " 失败: " rows 0 0 s₀).2.2) := by
  rw [batch_insert_rows]
  simp [hne, hbegin]

lemma batch_delete_rows_eq (C : BatchConn σ) (s s₀ : σ) (schema table : String)
    (primary_keys : List (List (String × JValue))) (hne : primary_keys ≠ [])
    (hbegin : C.query "BEGIN" s = (.ok (), s₀)) :
    batch_delete_rows C s schema table primary_keys =
      ((batchLoop C (build_delete_statement schema table)
          "构建DELETE语句失败: " "删除操作 " " 失败: " primary_keys 0 0 s₀).1,
        (batchLoop C (build_delete_statement schema table)
          "构建DELETE语句失败: " "删除操作 " " 失败: " primary_keys 0 0 s₀).2.1,
        "BEGIN" :: (batchLoop C (build_delete_statement schema table)
          "构建DELETE语句失败: " "删除操作 " " 失败: " primary_keys 0 0 s₀).2.2) := by
  rw [batch_delete_rows]
  simp [hne, hbegin]

/-- The benign batch connection used by the C1 counterexample. -/
def connB0 : BatchConn Unit :=
  { query := fun _ s => (.ok (), s)
    exec := fun _ s => (.ok 1, s) }

/-- A malformed row update (empty changes) used by C1. -/
def badUpd : RowUpdate := ⟨[("id", .num "1")], []⟩

/-- C1 counterexample: a batch update whose only (and hence 1-based index 1)
item is malformed fails with the statement-construction message, which
carries no item index at all — the digit 1 does not occur in it — while the
claim requires the failure message to carry the 1-based index of the failing
item. -/
theorem claim_C1_counterexample :
    batch_update_rows connB0 () "public" "users" [badUpd] =
      (.errorResp "构建UPDATE语句失败: 没有要更新的字段", (), ["BEGIN", "ROLLBACK"]) ∧
    containsSeg "1".data "构建UPDATE语句失败: 没有要更新的字段".data = false :=
  ⟨by decide, by decide⟩

/-- C1 (amended): every batch operation (batch_update_rows, batch_insert_rows,
batch_delete_rows) with a non-empty item list behaves as follows once BEGIN
succeeds.  If every item builds and executes successfully and COMMIT
succeeds, the result is success with rowsAffected the sum of the per-item
engine-reported counts, and the trace is BEGIN, the item statements in order,
COMMIT.  If COMMIT itself fails, a ROLLBACK is issued and a failure result is
returned.  If the first failing item fails in statement construction, a
ROLLBACK is issued immediately, no further items are attempted, and the
failure message carries the construction error WITHOUT the item index.  If
the first failing item fails at engine execution, a ROLLBACK is issued
immediately, no further items are attempted, and the failure message carries
the 1-based index of the failing item. -/
theorem claim_C1 :
    (∀ (σ : Type) (C : BatchConn σ) (s s₀ s₁ s₂ : σ) (schema table : String)
      (items : List (RowUpdate)) (sqls : List String) (ns : List Nat),
      items ≠ [] →
      C.query "BEGIN" s = (.ok (), s₀) →
      buildAll (build_update_statement schema table) items = .ok sqls →
      execAllOk C sqls s₀ = some (ns, s₁) →
      C.query "COMMIT" s₁ = (.ok (), s₂) →
      batch_update_rows C s schema table items =
        (.successResp ns.sum, s₂, "BEGIN" :: (sqls ++ ["COMMIT"]))) ∧
    (∀ (σ : Type) (C : BatchConn σ) (s s₀ s₁ s₂ : σ) (schema table : String)
      (items : List (RowUpdate)) (sqls : List String) (ns : List Nat) (e : String),
      items ≠ [] →
      C.query "BEGIN" s = (.ok (), s₀) →
      buildAll (build_update_statement schema table) items = .ok sqls →
      execAllOk C sqls s₀ = some (ns, s₁) →
      C.query "COMMIT" s₁ = (.error e, s₂) →
      batch_update_rows C s schema table items =
        (.errorResp ("提交事务失败: " ++ e ++ ". 所有更改已回滚"),
          (C.query "ROLLBACK" s₂).2, "BEGIN" :: (sqls ++ ["COMMIT", "ROLLBACK"]))) ∧
    (∀ (σ : Type) (C : BatchConn σ) (s s₀ s₁ : σ) (schema table : String)
      (pre : List (RowUpdate)) (bad : RowUpdate) (rest : List (RowUpdate))
      (sqls : List String) (ns : List Nat) (e : String),
      C.query "BEGIN" s = (.ok (), s₀) →
      buildAll (build_update_statement schema table) pre = .ok sqls →
      execAllOk C sqls s₀ = some (ns, s₁) →
      build_update_statement schema table bad = .error e →
      batch_update_rows C s schema table (pre ++ bad :: rest) =
        (.errorResp ("构建UPDATE语句失败: " ++ e),
          (C.query "ROLLBACK" s₁).2, "BEGIN" :: (sqls ++ ["ROLLBACK"]))) ∧
    (∀ (σ : Type) (C : BatchConn σ) (s s₀ s₁ s₂ : σ) (schema table : String)
      (pre : List (RowUpdate)) (bad : RowUpdate) (rest : List (RowUpdate))
      (sqls : List String) (ns : List Nat) (q e : String),
      C.query "BEGIN" s = (.ok (), s₀) →
      buildAll (build_update_statement schema table) pre = .ok sqls →
      execAllOk C sqls s₀ = some (ns, s₁) →
      build_update_statement schema table bad = .ok q →
      C.exec q s₁ = (.error e, s₂) →
      batch_update_rows C s schema table (pre ++ bad :: rest) =
        (.errorResp ("更新操作 " ++ toString (pre.length + 1) ++ " 失败: " ++ e ++ ". 所有更改已回滚"),
          (C.query "ROLLBACK" s₂).2, "BEGIN" :: (sqls ++ [q, "ROLLBACK"]))) ∧
    (∀ (σ : Type) (C : BatchConn σ) (s s₀ s₁ s₂ : σ) (schema table : String)
      (items : List (List (String × JValue))) (sqls : List String) (ns : List Nat),
      items ≠ [] →
      C.query "BEGIN" s = (.ok (), s₀) →
      buildAll (build_insert_statement schema table) items = .ok sqls →
      execAllOk C sqls s₀ = some (ns, s₁) →
      C.query "COMMIT" s₁ = (.ok (), s₂) →
      batch_insert_rows C s schema table items =
        (.successResp ns.sum, s₂, "BEGIN" :: (sqls ++ ["COMMIT"]))) ∧
    (∀ (σ : Type) (C : BatchConn σ) (s s₀ s₁ s₂ : σ) (schema table : String)
      (items : List (List (String × JValue))) (sqls : List String) (ns : List Nat) (e : String),
      items ≠ [] →
      C.query "BEGIN" s = (.ok (), s₀) →
      buildAll (build_insert_statement schema table) items = .ok sqls →
      execAllOk C sqls s₀ = some (ns, s₁) →
      C.query "COMMIT" s₁ = (.error e, s₂) →
      batch_insert_rows C s schema table items =
        (.errorResp ("提交事务失败: " ++ e ++ ". 所有更改已回滚"),
          (C.query "ROLLBACK" s₂).2, "BEGIN" :: (sqls ++ ["COMMIT", "ROLLBACK"]))) ∧
    (∀ (σ : Type) (C : BatchConn σ) (s s₀ s₁ : σ) (schema table : String)
      (pre : List (List (String × JValue))) (bad : List (String × JValue)) (rest : List (List (String × JValue)))
      (sqls : List String) (ns : List Nat) (e : String),
      C.query "BEGIN" s = (.ok (), s₀) →
      buildAll (build_insert_statement schema table) pre = .ok sqls →
      execAllOk C sqls s₀ = some (ns, s₁) →
      build_insert_statement schema table bad = .error e →
      batch_insert_rows C s schema table (pre ++ bad :: rest) =
        (.errorResp ("构建INSERT语句失败: " ++ e),
          (C.query "ROLLBACK" s₁).2, "BEGIN" :: (sqls ++ ["ROLLBACK"]))) ∧
    (∀ (σ : Type) (C : BatchConn σ) (s s₀ s₁ s₂ : σ) (schema table : String)
      (pre : List (List (String × JValue))) (bad : List (String × JValue)) (rest : List (List (String × JValue)))
      (sqls : List String) (ns : List Nat) (q e : String),
      C.query "BEGIN" s = (.ok (), s₀) →
      buildAll (build_insert_statement schema table) pre = .ok sqls →
      execAllOk C sqls s₀ = some (ns, s₁) →
      build_insert_statement schema table bad = .ok q →
      C.exec q s₁ = (.error e, s₂) →
      batch_insert_rows C s schema table (pre ++ bad :: rest) =
        (.errorResp ("插入操作 " ++ toString (pre.length + 1) ++ " 失败: " ++ e ++ ". 所有更改已回滚"),
          (C.query "ROLLBACK" s₂).2, "BEGIN" :: (sqls ++ [q, "ROLLBACK"]))) ∧
    (∀ (σ : Type) (C : BatchConn σ) (s s₀ s₁ s₂ : σ) (schema table : String)
      (items : List (List (String × JValue))) (sqls : List String) (ns : List Nat),
      items ≠ [] →
      C.query "BEGIN" s = (.ok (), s₀) →
      buildAll (build_delete_statement schema table) items = .ok sqls →
      execAllOk C sqls s₀ = some (ns, s₁) →
      C.query "COMMIT" s₁ = (.ok (), s₂) →
      batch_delete_rows C s schema table items =
        (.successResp ns.sum, s₂, "BEGIN" :: (sqls ++ ["COMMIT"]))) ∧
    (∀ (σ : Type) (C : BatchConn σ) (s s₀ s₁ s₂ : σ) (schema table : String)
      (items : List (List (String × JValue))) (sqls : List String) (ns : List Nat) (e : String),
      items ≠ [] →
      C.query "BEGIN" s = (.ok (), s₀) →
      buildAll (build_delete_statement schema table) items = .ok sqls →
      execAllOk C sqls s₀ = some (ns, s₁) →
      C.query "COMMIT" s₁ = (.error e, s₂) →
      batch_delete_rows C s schema table items =
        (.errorResp ("提交事务失败: " ++ e ++ ". 所有更改已回滚"),
          (C.query "ROLLBACK" s₂).2, "BEGIN" :: (sqls ++ ["COMMIT", "ROLLBACK"]))) ∧
    (∀ (σ : Type) (C : BatchConn σ) (s s₀ s₁ : σ) (schema table : String)
      (pre : List (List (String × JValue))) (bad : List (String × JValue)) (rest : List (List (String × JValue)))
      (sqls : List String) (ns : List Nat) (e : String),
      C.query "BEGIN" s = (.ok (), s₀) →
      buildAll (build_delete_statement schema table) pre = .ok sqls →
      execAllOk C sqls s₀ = some (ns, s₁) →
      build_delete_statement schema table bad = .error e →
      batch_delete_rows C s schema table (pre ++ bad :: rest) =
        (.errorResp ("构建DELETE语句失败: " ++ e),
          (C.query "ROLLBACK" s₁).2, "BEGIN" :: (sqls ++ ["ROLLBACK"]))) ∧
    (∀ (σ : Type) (C : BatchConn σ) (s s₀ s₁ s₂ : σ) (schema table : String)
      (pre : List (List (String × JValue))) (bad : List (String × JValue)) (rest : List (List (String × JValue)))
      (sqls : List String) (ns : List Nat) (q e : String),
      C.query "BEGIN" s = (.ok (), s₀) →
      buildAll (build_delete_statement schema table) pre = .ok sqls →
      execAllOk C sqls s₀ = some (ns, s₁) →
      build_delete_statement schema table bad = .ok q →
      C.exec q s₁ = (.error e, s₂) →
      batch_delete_rows C s schema table (pre ++ bad :: rest) =
        (.errorResp ("删除操作 " ++ toString (pre.length + 1) ++ " 失败: " ++ e ++ ". 所有更改已回滚"),
          (C.query "ROLLBACK" s₂).2, "BEGIN" :: (sqls ++ [q, "ROLLBACK"]))) := by
  refine ⟨?_, ?_, ?_, ?_, ?_, ?_, ?_, ?_, ?_, ?_, ?_, ?_⟩
  · intro σ C s s₀ s₁ s₂ schema table items sqls ns hne hb hba he hc
    rw [batch_update_rows_eq C s s₀ schema table items hne hb]
    rw [batchLoop_commit C (build_update_statement schema table)
      "构建UPDATE语句失败: " "更新操作 " " 失败: " items sqls ns s₀ s₁ 0 0 hba he]
    simp [hc]
  · intro σ C s s₀ s₁ s₂ schema table items sqls ns e hne hb hba he hc
    rw [batch_update_rows_eq C s s₀ schema table items hne hb]
    rw [batchLoop_commit C (build_update_statement schema table)
      "构建UPDATE语句失败: " "更新操作 " " 失败: " items sqls ns s₀ s₁ 0 0 hba he]
    simp [hc]
  · intro σ C s s₀ s₁ schema table pre bad rest sqls ns e hb hba he hbad
    have hne : pre ++ bad :: rest ≠ [] := by simp
    rw [batch_update_rows_eq C s s₀ schema table _ hne hb]
    rw [batchLoop_buildFail C (build_update_statement schema table)
      "构建UPDATE语句失败: " "更新操作 " " 失败: " pre bad rest sqls ns s₀ s₁ 0 0 e hba he hbad]
  · intro σ C s s₀ s₁ s₂ schema table pre bad rest sqls ns q e hb hba he hbad hexe
    have hne : pre ++ bad :: rest ≠ [] := by simp
    rw [batch_update_rows_eq C s s₀ schema table _ hne hb]
    rw [batchLoop_execFail C (build_update_statement schema table)
      "构建UPDATE语句失败: " "更新操作 " " 失败: " pre bad rest sqls ns s₀ s₁ s₂ 0 0 q e hba he hbad hexe]
    simp
  · intro σ C s s₀ s₁ s₂ schema table items sqls ns hne hb hba he hc
    rw [batch_insert_rows_eq C s s₀ schema table items hne hb]
    rw [batchLoop_commit C (build_insert_statement schema table)
      "构建INSERT语句失败: " "插入操作 " " 失败: " items sqls ns s₀ s₁ 0 0 hba he]
    simp [hc]
  · intro σ C s s₀ s₁ s₂ schema table items sqls ns e hne hb hba he hc
    rw [batch_insert_rows_eq C s s₀ schema table items hne hb]
    rw [batchLoop_commit C (build_insert_statement schema table)
      "构建INSERT语句失败: " "插入操作 " " 失败: " items sqls ns s₀ s₁ 0 0 hba he]
    simp [hc]
  · intro σ C s s₀ s₁ schema table pre bad rest sqls ns e hb hba he hbad
    have hne : pre ++ bad :: rest ≠ [] := by simp
    rw [batch_insert_rows_eq C s s₀ schema table _ hne hb]
    rw [batchLoop_buildFail C (build_insert_statement schema table)
      "构建INSERT语句失败: " "插入操作 " " 失败: " pre bad rest sqls ns s₀ s₁ 0 0 e hba he hbad]
  · intro σ C s s₀ s₁ s₂ schema table pre bad rest sqls ns q e hb hba he hbad hexe
    have hne : pre ++ bad :: rest ≠ [] := by simp
    rw [batch_insert_rows_eq C s s₀ schema table _ hne hb]
    rw [batchLoop_execFail C (build_insert_statement schema table)
      "构建INSERT语句失败: " "插入操作 " " 失败: " pre bad rest sqls ns s₀ s₁ s₂ 0 0 q e hba he hbad hexe]
    simp
  · intro σ C s s₀ s₁ s₂ schema table items sqls ns hne hb hba he hc
    rw [batch_delete_rows_eq C s s₀ schema table items hne hb]
    rw [batchLoop_commit C (build_delete_statement schema table)
      "构建DELETE语句失败: " "删除操作 " " 失败: " items sqls ns s₀ s₁ 0 0 hba he]
    simp [hc]
  · intro σ C s s₀ s₁ s₂ schema table items sqls ns e hne hb hba he hc
    rw [batch_delete_rows_eq C s s₀ schema table items hne hb]
    rw [batchLoop_commit C (build_delete_statement schema table)
      "构建DELETE语句失败: " "删除操作 " " 失败: " items sqls ns s₀ s₁ 0 0 hba he]
    simp [hc]
  · intro σ C s s₀ s₁ schema table pre bad rest sqls ns e hb hba he hbad
    have hne : pre ++ bad :: rest ≠ [] := by simp
    rw [batch_delete_rows_eq C s s₀ schema table _ hne hb]
    rw [batchLoop_buildFail C (build_delete_statement schema table)
      "构建DELETE语句失败: " "删除操作 " " 失败: " pre bad rest sqls ns s₀ s₁ 0 0 e hba he hbad]
  · intro σ C s s₀ s₁ s₂ schema table pre bad rest sqls ns q e hb hba he hbad hexe
    have hne : pre ++ bad :: rest ≠ [] := by simp
    rw [batch_delete_rows_eq C s s₀ schema table _ hne hb]
    rw [batchLoop_execFail C (build_delete_statement schema table)
      "构建DELETE语句失败: " "删除操作 " " 失败: " pre bad rest sqls ns s₀ s₁ s₂ 0 0 q e hba he hbad hexe]
    simp


/-- Batch connection whose COMMIT fails. -/
def connBCF : BatchConn Unit :=
  { query := fun q s => if q = "COMMIT" then (.error "boom", s) else (.ok (), s)
    exec := fun _ s => (.ok 1, s) }

/-- Batch connection whose item execution fails. -/
def connBEF : BatchConn Unit :=
  { query := fun _ s => (.ok (), s)
    exec := fun _ s => (.error "kaput", s) }

/-- A well-formed row update used by the C1 witness. -/
def gU : RowUpdate := ⟨[("id", .num "1")], [("age", .num "30")]⟩

/-- A well-formed insert row used by the C1 witness. -/
def gI : List (String × JValue) := [("id", .num "1")]

/-- A well-formed delete key used by the C1 witness. -/
def gD : List (String × JValue) := [("id", .num "1")]

/-- The SQL the witness update item builds to. -/
def sqlU : String := "UPDATE public.users SET age = 30 WHERE id = 1"

/-- The SQL the witness insert item builds to. -/
def sqlI : String := "INSERT INTO public.users (id) VALUES (1)"

/-- The SQL the witness delete item builds to. -/
def sqlD : String := "DELETE FROM public.users WHERE id = 1"

/-- C1 witness: each branch of claim_C1 applied at concrete inputs — a
successful single-item batch, a failing COMMIT, a malformed item, and an
engine execution failure, for each of the three batch operations. -/
theorem claim_C1_witness :
    ([gU] ≠ ([] : List RowUpdate) ∧ connB0.query "BEGIN" () = (.ok (), ()) ∧
      buildAll (build_update_statement "public" "users") [gU] = .ok [sqlU] ∧
      execAllOk connB0 [sqlU] () = some ([1], ()) ∧
      connB0.query "COMMIT" () = (.ok (), ())) ∧
    batch_update_rows connB0 () "public" "users" [gU] =
      (.successResp 1, (), ["BEGIN", sqlU, "COMMIT"]) ∧
    batch_update_rows connBCF () "public" "users" [gU] =
      (.errorResp "提交事务失败: boom. 所有更改已回滚", (),
        ["BEGIN", sqlU, "COMMIT", "ROLLBACK"]) ∧
    batch_update_rows connB0 () "public" "users" ([] ++ badUpd :: []) =
      (.errorResp ("构建UPDATE语句失败: " ++ "没有要更新的字段"), (), ["BEGIN", "ROLLBACK"]) ∧
    batch_update_rows connBEF () "public" "users" ([] ++ gU :: []) =
      (.errorResp ("更新操作 " ++ toString (List.length ([] : List (RowUpdate)) + 1) ++ " 失败: " ++ "kaput" ++ ". 所有更改已回滚"), (),
        ["BEGIN", sqlU, "ROLLBACK"]) ∧
    batch_insert_rows connB0 () "public" "users" [gI] =
      (.successResp 1, (), ["BEGIN", sqlI, "COMMIT"]) ∧
    batch_insert_rows connBCF () "public" "users" [gI] =
      (.errorResp "提交事务失败: boom. 所有更改已回滚", (),
        ["BEGIN", sqlI, "COMMIT", "ROLLBACK"]) ∧
    batch_insert_rows connB0 () "public" "users" ([] ++ ([] : List (String × JValue)) :: []) =
      (.errorResp ("构建INSERT语句失败: " ++ "没有要插入的数据"), (), ["BEGIN", "ROLLBACK"]) ∧
    batch_insert_rows connBEF () "public" "users" ([] ++ gI :: []) =
      (.errorResp ("插入操作 " ++ toString (List.length ([] : List (List (String × JValue))) + 1) ++ " 失败: " ++ "kaput" ++ ". 所有更改已回滚"), (),
        ["BEGIN", sqlI, "ROLLBACK"]) ∧
    batch_delete_rows connB0 () "public" "users" [gD] =
      (.successResp 1, (), ["BEGIN", sqlD, "COMMIT"]) ∧
    batch_delete_rows connBCF () "public" "users" [gD] =
      (.errorResp "提交事务失败: boom. 所有更改已回滚", (),
        ["BEGIN", sqlD, "COMMIT", "ROLLBACK"]) ∧
    batch_delete_rows connB0 () "public" "users" ([] ++ ([] : List (String × JValue)) :: []) =
      (.errorResp ("构建DELETE语句失败: " ++ "主键不能为空"), (), ["BEGIN", "ROLLBACK"]) ∧
    batch_delete_rows connBEF () "public" "users" ([] ++ gD :: []) =
      (.errorResp ("删除操作 " ++ toString (List.length ([] : List (List (String × JValue))) + 1) ++ " 失败: " ++ "kaput" ++ ". 所有更改已回滚"), (),
        ["BEGIN", sqlD, "ROLLBACK"]) :=
  ⟨⟨by decide, rfl, rfl, by decide, rfl⟩,
    (claim_C1.1 Unit connB0 () () () () "public" "users" [gU] [sqlU] [1]
      (by decide) rfl rfl rfl rfl),
    (claim_C1.2.1 Unit connBCF () () () () "public" "users" [gU] [sqlU] [1] "boom"
      (by decide) rfl rfl rfl rfl),
    (claim_C1.2.2.1 Unit connB0 () () () "public" "users" [] badUpd [] [] [] "没有要更新的字段"
      rfl rfl rfl rfl),
    (claim_C1.2.2.2.1 Unit connBEF () () () () "public" "users" [] gU [] [] [] sqlU "kaput"
      rfl rfl rfl rfl rfl),
    (claim_C1.2.2.2.2.1 Unit connB0 () () () () "public" "users" [gI] [sqlI] [1]
      (by decide) rfl rfl rfl rfl),
    (claim_C1.2.2.2.2.2.1 Unit connBCF () () () () "public" "users" [gI] [sqlI] [1] "boom"
      (by decide) rfl rfl rfl rfl),
    (claim_C1.2.2.2.2.2.2.1 Unit connB0 () () () "public" "users" [] ([] : List (String × JValue)) [] [] [] "没有要插入的数据"
      rfl rfl rfl rfl),
    (claim_C1.2.2.2.2.2.2.2.1 Unit connBEF () () () () "public" "users" [] gI [] [] [] sqlI "kaput"
      rfl rfl rfl rfl rfl),
    (claim_C1.2.2.2.2.2.2.2.2.1 Unit connB0 () () () () "public" "users" [gD] [sqlD] [1]
      (by decide) rfl rfl rfl rfl),
    (claim_C1.2.2.2.2.2.2.2.2.2.1 Unit connBCF () () () () "public" "users" [gD] [sqlD] [1] "boom"
      (by decide) rfl rfl rfl rfl),
    (claim_C1.2.2.2.2.2.2.2.2.2.2.1 Unit connB0 () () () "public" "users" [] ([] : List (String × JValue)) [] [] [] "主键不能为空"
      rfl rfl rfl rfl),
    (claim_C1.2.2.2.2.2.2.2.2.2.2.2 Unit connBEF () () () () "public" "users" [] gD [] [] [] sqlD "kaput"
      rfl rfl rfl rfl rfl)⟩
